import Mathlib

/-!
Verification of the meal-plan generation core (app/query_parser.py,
app/query_validator.py, app/meal_generator.py, app/recipe_service.py,
app/recipe_generation/llm_only.py, app/recipe_generation/hybrid_strategy.py).

Shallow embedding conventions:
* Python dicts with a fixed field contract become Lean structures; a field that
  can be missing from the dict is an `Option` when some code path distinguishes
  a missing key from a default value.
* Python lists become `List`, strings become `String`.
* A Python `set` built from a list is modelled as the list deduplicated keeping
  first occurrences (`pyDedup`); CPython leaves the iteration order of a set
  unspecified, so this is a deterministic representative of that order.
  Membership, emptiness and cardinality are exact.
* Calls to the external OpenAI client are modelled by an explicit outcome
  parameter: `none` stands for any raised exception (timeout, malformed JSON),
  `some r` for a successfully decoded JSON payload.
* Python float literals used by the code (`0.7`, nutrition values) are all
  exactly representable; they are modelled as `Rat`.  The `or`, `max`, `min`
  and comparison operations used on them are exact, so no float rounding is
  involved in any modelled branch.
* Fallible operations return `Except PyErr`; `PyErr` abstracts the Python
  exception that would be raised.
-/

/-! ### Small Python-semantics utilities -/

/-- Python whitespace class `\s` restricted to the characters that can occur
in query strings (space, tab, newline, carriage return, form feed, vtab). -/
def pyIsSpace (c : Char) : Bool :=
  c = ' ' || c = '\t' || c = '\n' || c = '\r' || c = '\x0b' || c = '\x0c'

/-- Numeric value of a digit run, as `int()` applied to the captured group. -/
def natOfDigits (ds : List Char) : Nat :=
  ds.foldl (fun a c => a * 10 + (c.toNat - 48)) 0

/-- One token of the tiny regex fragment used by the Python code:
a literal, `\s*`, or a captured `\d+`. -/
inductive RegTok where
  | lit : List Char → RegTok
  | ws : RegTok
  | num : RegTok
deriving Repr, DecidableEq

/-- Match a token sequence at the start of `cs`; `acc` carries the captured
number.  `\s*` and `\d+` are greedy, which is faithful here because in every
pattern used by the code a greedy run is never followed by a token able to
consume the same characters. -/
def matchToks : List RegTok → List Char → Option Nat → Option Nat
  | [], _, acc => acc
  | RegTok.lit l :: ts, cs, acc =>
      if l.isPrefixOf cs then matchToks ts (cs.drop l.length) acc else none
  | RegTok.ws :: ts, cs, acc => matchToks ts (cs.dropWhile pyIsSpace) acc
  | RegTok.num :: ts, cs, acc =>
      let ds := cs.takeWhile Char.isDigit
      if ds.isEmpty then none
      else matchToks ts (cs.dropWhile Char.isDigit) (some (natOfDigits ds))

/-- `re.search`: try the pattern at every start position, leftmost match wins. -/
def searchToks (ts : List RegTok) : List Char → Option Nat
  | [] => matchToks ts [] none
  | c :: cs =>
      match matchToks ts (c :: cs) none with
      | some n => some n
      | none => searchToks ts cs

/-- Contiguous-sublist test on character lists (Python `pat in s`). -/
def subListOf (pat : List Char) : List Char → Bool
  | [] => pat.isEmpty
  | c :: cs => pat.isPrefixOf (c :: cs) || subListOf pat cs

/-- Python substring membership `pat in s`. -/
def containsSubstr (s pat : String) : Bool :=
  subListOf pat.toList s.toList

/-- Worker for `pyDedup`: drop elements already seen, keep first occurrences. -/
def pyDedupAux (seen : List String) : List String → List String
  | [] => []
  | x :: xs =>
      if x ∈ seen then pyDedupAux seen xs else x :: pyDedupAux (x :: seen) xs

/-- Model of Python `list(set(l))`: same members, duplicates removed.  CPython
leaves the resulting order unspecified; we fix first-occurrence order as the
deterministic representative. -/
def pyDedup (l : List String) : List String := pyDedupAux [] l

/-- Python `", ".join(l)`. -/
def joinComma : List String → String
  | [] => ""
  | [x] => x
  | x :: y :: xs => x ++ ", " ++ joinComma (y :: xs)

/-- Python `set.add`: insert if absent (insertion-ordered list model). -/
def pySetAdd (s : List String) (x : String) : List String :=
  if x ∈ s then s else s ++ [x]

/-- Python `str.lower()` (ASCII inputs). -/
def pyLower (s : String) : String := String.mk (s.data.map Char.toLower)

/-- Python `str.capitalize()`: first character uppercased, rest lowercased. -/
def pyCapitalize (s : String) : String :=
  match s.data with
  | [] => s
  | c :: cs => String.mk (c.toUpper :: cs.map Char.toLower)

/-- Python `str.strip()`: drop leading and trailing whitespace. -/
def pyStrip (s : String) : String :=
  String.mk (((s.data.dropWhile pyIsSpace).reverse.dropWhile pyIsSpace).reverse)

/-- Fuelled worker for `pySplitOn`; the fuel (initially the string length)
only bounds the recursion, every step consumes at least one character. -/
def pySplitGo (sep : List Char) : Nat → List Char → List Char →
    List (List Char)
  | _, [], cur => [cur.reverse]
  | 0, s, cur => [cur.reverse ++ s]
  | fuel + 1, c :: cs, cur =>
      if sep.isPrefixOf (c :: cs) ∧ sep ≠ [] then
        cur.reverse :: pySplitGo sep fuel ((c :: cs).drop sep.length) []
      else pySplitGo sep fuel cs (c :: cur)

/-- Python `s.split(sep)` for a nonempty separator: split on every
non-overlapping occurrence, left to right. -/
def pySplitOn (s sep : String) : List String :=
  (pySplitGo sep.data s.data.length s.data []).map String.mk

/-- Fuelled worker for `pyReplace`. -/
def pyReplaceGo (pat rep : List Char) : Nat → List Char → List Char
  | _, [] => []
  | 0, s => s
  | fuel + 1, c :: cs =>
      if pat.isPrefixOf (c :: cs) ∧ pat ≠ [] then
        rep ++ pyReplaceGo pat rep fuel ((c :: cs).drop pat.length)
      else c :: pyReplaceGo pat rep fuel cs

/-- Python `s.replace(pat, rep)`: replace every non-overlapping occurrence. -/
def pyReplace (s pat rep : String) : String :=
  String.mk (pyReplaceGo pat.data rep.data s.data.length s.data)

/-! ### Data model -/

/-- The parsed-query dictionary produced by `QueryParser` and consumed by the
validators and `MealPlanGenerator` (query_parser.py lines 141-149 fix the field
contract).  `meals_per_day` is an `Option` because `_validate_meal_count`
checks for the key with `'meals_per_day' not in parsed`; every other field is
only ever read through `dict.get` with a fixed default, so a missing key is
observationally the default value. -/
structure Parsed where
  duration_days : Int
  meals_per_day : Option Int
  meal_types : List String
  dietary_restrictions : List String
  preferences : List String
  special_requirements : List String
  contradictions : List String
  prep_time_max : Option Int
deriving Repr, DecidableEq

/-- A well-typed JSON object returned by the LLM query-parsing call
(`_parse_with_llm`).  Absent keys are `none`; `_validate_and_clean` fills the
defaults.  (String-typed numeric fields, which `_validate_and_clean` repairs
with `re.findall`, are outside this model; no claim depends on them.) -/
structure LlmParsed where
  duration_days : Option Int
  meals_per_day : Option Int
  meal_types : List String
  dietary_restrictions : List String
  preferences : List String
  special_requirements : List String
  contradictions : List String
deriving Repr, DecidableEq

/-- `nutritional_info` sub-dictionary of a recipe.  The float fields of the
source are all integral or exact decimal literals, modelled as `Rat`. -/
structure Nutrition where
  calories : Option Int
  protein : Option Rat
  carbs : Option Rat
  fat : Option Rat
deriving Repr, DecidableEq

/-- A recipe dictionary as it flows through the generator.  Every field is an
`Option` because `_calculate_summary` and `_validate_recipe` read the fields
with `dict.get` / `in` checks on possibly incomplete LLM output. -/
structure Meal where
  recipe_name : Option String
  description : Option String
  ingredients : List String
  nutritional_info : Option Nutrition
  preparation_time : Option String
  instructions : Option String
  source : Option String
  meal_type : Option String
deriving Repr, DecidableEq

/-- One day of a meal plan (`{"day": .., "date": .., "meals": ..}`).
Calendar dates are modelled as day ordinals (`start_date + (day - 1)`). -/
structure DayPlan where
  day : Nat
  date : Nat
  meals : List Meal
deriving Repr, DecidableEq

/-- Summary block of a meal-plan response. -/
structure Summary where
  total_meals : Nat
  dietary_compliance : List String
  estimated_cost : String
  avg_prep_time : String
deriving Repr, DecidableEq

/-- The dictionary returned by `MealPlanGenerator.generate`
(meal_generator.py lines 213-220). -/
structure Response where
  meal_plan_id : String
  duration_days : Int
  generated_at : Nat
  meal_plan : List DayPlan
  summary : Summary
  warning : Option String
deriving Repr, DecidableEq

/-- Abstract Python exception. -/
inductive PyErr where
  | attributeError : String → PyErr
  | typeError : String → PyErr
  | other : String → PyErr
deriving Repr, DecidableEq

/-! ### Query-derived extractions (query_validator.py, query_parser.py) -/

/-- `re.search(r'(\d+)\s*meals?', query_lower)` — matching `"meal"` suffices,
the trailing `s?` never affects the captured group. -/
def reSearchNumMeals (ql : String) : Option Nat :=
  searchToks [RegTok.num, RegTok.ws, RegTok.lit "meal".toList] ql.toList

/-- `re.search(r'(\d+)\s*day', query_lower)` from `_parse_with_regex`. -/
def reSearchNumDay (ql : String) : Option Nat :=
  searchToks [RegTok.num, RegTok.ws, RegTok.lit "day".toList] ql.toList

/-- The ordered `time_patterns` list of `_validate_prep_time`; the first
pattern that matches wins. -/
def prepTimePatterns : List (List RegTok) :=
  [ [RegTok.num, RegTok.ws, RegTok.lit "minute".toList],
    [RegTok.num, RegTok.ws, RegTok.lit "min".toList],
    [RegTok.lit "under".toList, RegTok.ws, RegTok.num],
    [RegTok.lit "less".toList, RegTok.ws, RegTok.lit "than".toList,
      RegTok.ws, RegTok.num],
    [RegTok.num, RegTok.ws, RegTok.lit "minute".toList, RegTok.ws,
      RegTok.lit "or".toList, RegTok.ws, RegTok.lit "less".toList] ]

/-- First matching prep-time pattern (`for pattern, unit in time_patterns`). -/
def prepTimeFromPatterns (ql : String) : Option Nat :=
  prepTimePatterns.foldl
    (fun acc ts => match acc with
      | some n => some n
      | none => searchToks ts ql.toList) none

/-- `quick_keywords` of `_validate_prep_time`. -/
def quickKeywords : List String :=
  ["quick", "fast", "easy", "simple", "15 minute", "30 minute"]

/-- Full prep-time extraction of `_validate_prep_time` lines 236-253:
explicit patterns first, then quick-meal keywords with 15/30 defaults. -/
def prepTimeMaxOf (ql : String) : Option Nat :=
  let fromPatterns := prepTimeFromPatterns ql
  if quickKeywords.any (fun k => containsSubstr ql k) then
    match fromPatterns with
    | some n => some n
    | none =>
        if containsSubstr ql "15 minute" || containsSubstr ql "15 min" then
          some 15
        else if containsSubstr ql "30 minute" || containsSubstr ql "30 min" then
          some 30
        else some 30
  else fromPatterns

/-- `budget_keywords` table of `_validate_budget`; dict order is insertion
order in Python 3.7+, and the first level with a keyword hit wins. -/
def budgetLevelOf (ql : String) : Option String :=
  if ["budget", "cheap", "affordable", "low cost", "inexpensive"].any
      (fun k => containsSubstr ql k) then some "budget-friendly"
  else if ["moderate", "reasonable", "average"].any
      (fun k => containsSubstr ql k) then some "moderate"
  else if ["premium", "expensive", "luxury", "gourmet", "high-end"].any
      (fun k => containsSubstr ql k) then some "premium"
  else none

/-- Meal types mentioned in the query, in the fixed breakfast/lunch/dinner/
snack probe order (`_validate_meal_count` pattern 2, `_parse_with_regex`). -/
def mealTypesMentioned (ql : String) : List String :=
  (if containsSubstr ql "breakfast" then ["breakfast"] else []) ++
  (if containsSubstr ql "lunch" then ["lunch"] else []) ++
  (if containsSubstr ql "dinner" || containsSubstr ql "supper" then
    ["dinner"] else []) ++
  (if containsSubstr ql "snack" then ["snack"] else [])

/-! ### QueryValidator (query_validator.py)

Each validator returns the corrected dictionary plus the warning that
`QueryValidator.validate` would collect for it.  `validate` only collects a
message when the validator reports `is_valid=False` (lines 50-54), so the
advisory messages that `_validate_budget` and `_validate_prep_time` attach to
`is_valid=True` results are dropped at the source and not modelled. -/

/-- `_validate_meal_count` (lines 65-125). -/
def validateMealCount (q : String) (p : Parsed) : Parsed × Option String :=
  let ql := pyLower q
  match reSearchNumMeals ql with
  | some n =>
      if 1 ≤ n ∧ n ≤ 4 then ({ p with meals_per_day := some (n : Int) }, none)
      else
        let m := max 1 (min 4 (n : Int))
        ({ p with meals_per_day := some m },
          some "Meal count adjusted (valid range: 1-4)")
  | none =>
      let mentioned := mealTypesMentioned ql
      if mentioned ≠ [] then
        ({ p with meals_per_day := some (mentioned.length : Int),
                  meal_types := mentioned }, none)
      else
        -- Pattern 3 (`'only'` with a meal-type word) can only fire when a
        -- meal-type word occurs, i.e. when `mentioned ≠ []`; it is translated
        -- faithfully and is dead in this branch.
        let viaOnly : Option Parsed :=
          if containsSubstr ql "only" then
            if containsSubstr ql "breakfast" then
              some { p with meals_per_day := some 1,
                            meal_types := ["breakfast"] }
            else if containsSubstr ql "lunch" then
              some { p with meals_per_day := some 1, meal_types := ["lunch"] }
            else if containsSubstr ql "dinner" then
              some { p with meals_per_day := some 1, meal_types := ["dinner"] }
            else none
          else none
        match viaOnly with
        | some p3 => (p3, none)
        | none =>
            match p.meals_per_day with
            | some _ => (p, none)
            | none =>
                ({ p with meals_per_day := some 3,
                          meal_types := ["breakfast", "lunch", "dinner"] },
                  none)

/-- `_validate_duration` (lines 127-147). -/
def validateDuration (_q : String) (p : Parsed) : Parsed × Option String :=
  let duration := p.duration_days
  if duration < 1 then
    ({ p with duration_days := 1 }, some "Duration adjusted to minimum 1 day")
  else if duration > 7 then
    ({ p with duration_days := 7 }, some "Duration adjusted to maximum 7 days")
  else (p, none)

/-- `_validate_dietary_restrictions` (lines 149-160): advisory only. -/
def validateDietaryRestrictions (_q : String) (p : Parsed) :
    Parsed × Option String :=
  if p.dietary_restrictions.length > 5 then
    (p, some "Many dietary restrictions specified. Some may conflict.")
  else (p, none)

/-- `known_contradictions` table (lines 168-173). -/
def knownContradictions : List (String × String) :=
  [("vegan", "pescatarian"), ("vegan", "vegetarian"),
   ("keto", "high-carb"), ("low-carb", "high-carb")]

/-- Inner loop of `_validate_contradictions` for one `restriction`: collect
`"A and B"` strings for every known pair it belongs to whose partner occurs in
the restrictions or preferences. -/
def contradictionsFor (r : String) (restrictions preferences : List String) :
    List String :=
  knownContradictions.foldl
    (fun acc kp =>
      if r = kp.1 ∨ r = kp.2 then
        let other := if kp.1 = r then kp.2 else kp.1
        if other ∈ restrictions ∨ other ∈ preferences then
          acc ++ [r ++ " and " ++ other]
        else acc
      else acc) []

/-- Detection loop of `_validate_contradictions` (lines 175-180); the
Python `set(...)` being iterated is modelled by `pyDedup`, and membership in
it by membership in the original list. -/
def detectContradictions (restrictions preferences : List String) :
    List String :=
  (pyDedup restrictions).foldl
    (fun acc r => acc ++ contradictionsFor r restrictions preferences) []

/-- `_validate_contradictions` (lines 162-189). -/
def validateContradictions (_q : String) (p : Parsed) :
    Parsed × Option String :=
  let contradictions :=
    p.contradictions ++
      detectContradictions p.dietary_restrictions p.preferences
  if contradictions ≠ [] then
    let msg := joinComma contradictions
    ({ p with contradictions := pyDedup contradictions },
      some ("Contradictory requirements detected: " ++ msg))
  else (p, none)

/-- The three budget levels removed before re-appending (line 213). -/
def budgetWords : List String := ["budget-friendly", "moderate", "premium"]

/-- `_validate_budget` (lines 191-221).  Note the guard checks for the literal
string `'budget_level'` (underscore), which is never an element placed in
`special_requirements` by this code, so for pipeline-produced dictionaries the
rewrite always runs when a budget keyword is present. -/
def validateBudget (q : String) (p : Parsed) : Parsed × Option String :=
  let ql := pyLower q
  match budgetLevelOf ql with
  | some lvl =>
      if "budget_level" ∈ p.special_requirements then (p, none)
      else
        let sr := (p.special_requirements.filter
          (fun r => ¬ r ∈ budgetWords)) ++ [lvl]
        ({ p with special_requirements := sr }, none)
  | none => (p, none)

/-- `_validate_prep_time` (lines 223-266).  `if prep_time_max:` is Python
truthiness: both `None` and `0` skip the update. -/
def validatePrepTime (q : String) (p : Parsed) : Parsed × Option String :=
  let ql := pyLower q
  match prepTimeMaxOf ql with
  | some n =>
      if n ≠ 0 then
        let sr :=
          if ¬ "quick-meals" ∈ p.special_requirements ∧ n ≤ 30 then
            p.special_requirements ++ ["quick-meals"]
          else p.special_requirements
        ({ p with prep_time_max := some (n : Int),
                  special_requirements := sr }, none)
      else (p, none)
  | none => (p, none)

/-- `QueryValidator.validate` (lines 35-63): run the validators in their
registration order (line 25-33), threading the corrected dictionary and
collecting the warnings of invalid results. -/
def QueryValidator.validate (q : String) (p : Parsed) : Parsed × List String :=
  let r1 := validateMealCount q p
  let r2 := validateDuration q r1.1
  let r3 := validateDietaryRestrictions q r2.1
  let r4 := validateContradictions q r3.1
  let r5 := validateBudget q r4.1
  let r6 := validatePrepTime q r5.1
  (r6.1, [r1.2, r2.2, r3.2, r4.2, r5.2, r6.2].filterMap id)

/-! ### QueryParser (query_parser.py) -/

/-- Default meal types for a given (already clamped) meal count
(query_parser.py lines 114-122 and 183-192). -/
def defaultMealTypes (meals_per_day : Int) : List String :=
  if meals_per_day = 1 then ["lunch"]
  else if meals_per_day = 2 then ["breakfast", "dinner"]
  else if meals_per_day = 3 then ["breakfast", "lunch", "dinner"]
  else ["breakfast", "lunch", "dinner", "snack"]

/-- `restriction_keywords` of `_parse_with_regex` (lines 196-205), in dict
insertion order; every key equals its value. -/
def restrictionKeywords : List String :=
  ["vegan", "vegetarian", "gluten-free", "dairy-free", "nut-free",
   "pescatarian", "paleo", "keto"]

/-- `QueryParser._parse_with_regex` (lines 151-235): the deterministic
fallback extraction. -/
def parseWithRegex (q : String) : Parsed :=
  let ql := pyLower q
  let duration0 : Int :=
    match reSearchNumDay ql with
    | some n => (n : Int)
    | none =>
        if containsSubstr ql "week" || containsSubstr ql "7" then 7 else 3
  let duration := max 1 (min 7 duration0)
  let meals0 : Int :=
    match reSearchNumMeals ql with
    | some n => (n : Int)
    | none => 3
  let meals_per_day := max 1 (min 4 meals0)
  let mentioned := mealTypesMentioned ql
  let meal_types := if mentioned = [] then defaultMealTypes meals_per_day
    else mentioned
  let restrictions := restrictionKeywords.filter
    (fun k => containsSubstr ql k)
  let preferences :=
    (if containsSubstr ql "high protein" || containsSubstr ql "high-protein"
      then ["high-protein"] else []) ++
    (if containsSubstr ql "low carb" || containsSubstr ql "low-carb"
      then ["low-carb"] else []) ++
    (if containsSubstr ql "mediterranean" then ["mediterranean"] else [])
  let special :=
    (if containsSubstr ql "budget" || containsSubstr ql "cheap"
      then ["budget-friendly"] else []) ++
    (if containsSubstr ql "quick" || containsSubstr ql "fast" ||
        containsSubstr ql "15 minute" then ["quick-meals"] else [])
  { duration_days := duration
    meals_per_day := some meals_per_day
    meal_types := meal_types.take meals_per_day.toNat
    dietary_restrictions := restrictions
    preferences := preferences
    special_requirements := special
    contradictions := []
    prep_time_max := none }

/-- `QueryParser._validate_and_clean` (lines 92-149), on a well-typed LLM
payload.  The returned dict does not carry a `prep_time_max` key. -/
def validateAndClean (r : LlmParsed) : Parsed :=
  let duration := max 1 (min 7 (r.duration_days.getD 3))
  let meals_per_day := max 1 (min 4 (r.meals_per_day.getD 3))
  let meal_types :=
    if r.meal_types = [] then defaultMealTypes meals_per_day else r.meal_types
  { duration_days := duration
    meals_per_day := some meals_per_day
    meal_types := meal_types.take meals_per_day.toNat
    dietary_restrictions := pyDedup r.dietary_restrictions
    preferences := pyDedup r.preferences
    special_requirements := pyDedup r.special_requirements
    contradictions := pyDedup r.contradictions
    prep_time_max := none }

/-- `QueryParser.parse` (lines 19-49).  `llm` is the outcome of the external
`_parse_with_llm` call; on any exception (`none`) the regex fallback runs.
Both paths run the validators; neither path raises. -/
def QueryParser.parse (q : String) (llm : Option LlmParsed) : Parsed :=
  match llm with
  | some r => (QueryValidator.validate q (validateAndClean r)).1
  | none => (QueryValidator.validate q (parseWithRegex q)).1

/-! ### MealPlanGenerator._resolve_contradictions (meal_generator.py 19-107) -/

/-- `resolution_rules` (lines 30-35): for a known pair, the preferred item. -/
def resolutionRules : List ((String × String) × String) :=
  [(("vegan", "pescatarian"), "vegan"),
   (("vegan", "vegetarian"), "vegan"),
   (("keto", "high-carb"), "keto"),
   (("low-carb", "high-carb"), "low-carb")]

/-- Rule lookup (lines 53-59): first rule whose pair equals `{item1, item2}`
in either order wins; returns `(keep_item, remove_item)`. -/
def findResolutionRule (item1 item2 : String) : Option (String × String) :=
  resolutionRules.foldl
    (fun acc rule =>
      match acc with
      | some _ => acc
      | none =>
          let p1 := rule.1.1
          let p2 := rule.1.2
          let preferred := rule.2
          if (item1 = pyLower p1 ∧ item2 = pyLower p2) ∨
              (item1 = pyLower p2 ∧ item2 = pyLower p1) then
            some (pyLower preferred,
              if item1 = pyLower preferred then item2 else item1)
          else none) none

/-- The mutable state threaded through the contradiction loop of
`_resolve_contradictions`: the two lists being edited plus the
`removed_items` / `kept_items` accumulators. -/
structure ResolveState where
  dietary_restrictions : List String
  preferences : List String
  removed : List String
  kept : List String
deriving Repr, DecidableEq

/-- One iteration of `for contradiction in contradictions` (lines 41-94). -/
def resolveStep (st : ResolveState) (c : String) : ResolveState :=
  let parts := (pySplitOn (pyLower c) " and ").map pyStrip
  match parts with
  | [item1, item2] =>
      let keepRemove :=
        match findResolutionRule item1 item2 with
        | some kr => kr
        | none =>
            let restrictions := st.dietary_restrictions.map pyLower
            let preferences := st.preferences.map pyLower
            if item1 ∈ restrictions ∧ item2 ∈ preferences then (item1, item2)
            else if item2 ∈ restrictions ∧ item1 ∈ preferences then
              (item2, item1)
            else (item1, item2)
      let keep := keepRemove.1
      let remove := keepRemove.2
      -- `if remove_item:` — Python truthiness on strings.
      if remove ≠ "" then
        let dr :=
          if remove ∈ st.dietary_restrictions.map pyLower then
            st.dietary_restrictions.filter (fun r => pyLower r ≠ remove)
          else st.dietary_restrictions
        let pf :=
          if remove ∈ st.preferences.map pyLower then
            st.preferences.filter (fun r => pyLower r ≠ remove)
          else st.preferences
        { dietary_restrictions := dr
          preferences := pf
          removed := st.removed ++ [remove]
          kept := st.kept ++ [keep] }
      else st
  | _ => st

/-- `MealPlanGenerator._resolve_contradictions` (lines 19-107). -/
def resolveContradictions (p : Parsed) : Parsed × Option String :=
  if p.contradictions = [] then (p, none)
  else
    let st := p.contradictions.foldl resolveStep
      { dietary_restrictions := p.dietary_restrictions
        preferences := p.preferences
        removed := []
        kept := [] }
    let warning :=
      if st.removed ≠ [] ∧ st.kept ≠ [] then
        let removedStr := joinComma (pyDedup st.removed)
        let keptStr := joinComma (pyDedup st.kept)
        "I noticed you requested both " ++ removedStr ++ " and " ++ keptStr ++
          ", which conflict. I\x27ve created a " ++ keptStr ++
          " meal plan for you."
      else "I\x27ve resolved some conflicting requirements in your request."
    ({ p with dietary_restrictions := st.dietary_restrictions
              preferences := st.preferences
              contradictions := [] },
      some warning)

/-! ### MealPlanGenerator summary, fallback and generate (meal_generator.py) -/

/-- `re.search(r'(\d+)', s)`: the first maximal digit run of the text. -/
def firstNumberIn (s : String) : Option Nat :=
  searchToks [RegTok.num] s.toList

/-- Calories of one meal: `meal.get("nutritional_info", {}).get("calories",
400)` (lines 257-261). -/
def mealCalories (m : Meal) : Int :=
  match m.nutritional_info with
  | some ni => ni.calories.getD 400
  | none => 400

/-- `MealPlanGenerator._calculate_summary` (lines 234-278).  The cost bounds
multiply by the float literals 0.008 / 0.012 / 0.7 and truncate with `int()`;
this is modelled by exact rational arithmetic with truncating division (the
claims do not touch the cost field). -/
def calculateSummary (meal_plan : List DayPlan) (parsed : Parsed) : Summary :=
  let total_meals := (meal_plan.map (fun d => d.meals.length)).sum
  let dietary_compliance :=
    parsed.dietary_restrictions ++ parsed.preferences
  let prep_times := meal_plan.foldl
    (fun acc d => d.meals.foldl
      (fun acc m =>
        match firstNumberIn (m.preparation_time.getD "30 mins") with
        | some n => acc ++ [n]
        | none => acc) acc) ([] : List Nat)
  let avgNum := prep_times.sum / prep_times.length
  let avgStr := toString avgNum ++ " mins"
  let avg_prep_time := if prep_times ≠ [] then avgStr else "25 mins"
  let total_calories := (meal_plan.map
    (fun d => (d.meals.map mealCalories).sum)).sum
  let cost_low0 := (total_calories * 8) / 1000
  let cost_high0 := (total_calories * 12) / 1000
  let cost_low :=
    if "budget-friendly" ∈ parsed.special_requirements then
      (cost_low0 * 7) / 10
    else cost_low0
  let cost_high :=
    if "budget-friendly" ∈ parsed.special_requirements then
      (cost_high0 * 7) / 10
    else cost_high0
  { total_meals := total_meals
    dietary_compliance :=
      if dietary_compliance = [] then ["standard"]
      else pyDedup dietary_compliance
    estimated_cost := "$" ++ toString cost_low ++ "-" ++ toString cost_high
    avg_prep_time := avg_prep_time }

/-- The fixed `default_recipes` table of `_generate_fallback_meal_plan`
(lines 291-319). -/
def fallbackDefaultRecipe (meal_type : String) : Meal :=
  if meal_type = "breakfast" then
    { recipe_name := some "Classic Oatmeal Bowl"
      description := some "A hearty and nutritious breakfast to start your day"
      ingredients := ["1 cup rolled oats", "2 cups water or milk",
        "1 banana, sliced", "1 tbsp honey", "Pinch of salt"]
      nutritional_info := some
        { calories := some 350, protein := some 12, carbs := some 65,
          fat := some 6 }
      preparation_time := some "10 mins"
      instructions := some "1. Bring water/milk to a boil. 2. Add oats and salt, reduce heat. 3. Cook for 5 minutes, stirring occasionally. 4. Top with banana and honey."
      source := some "Default Recipe"
      meal_type := none }
  else if meal_type = "lunch" then
    { recipe_name := some "Mixed Green Salad"
      description := some "Fresh and healthy salad with a variety of vegetables"
      ingredients := ["4 cups mixed greens", "1 cucumber, sliced",
        "1 tomato, diced", "1/4 cup olive oil", "2 tbsp lemon juice",
        "Salt and pepper"]
      nutritional_info := some
        { calories := some 280, protein := some 8, carbs := some 20,
          fat := some 22 }
      preparation_time := some "15 mins"
      instructions := some "1. Wash and prepare all vegetables. 2. Combine greens, cucumber, and tomato in a large bowl. 3. Whisk together olive oil, lemon juice, salt, and pepper. 4. Drizzle dressing over salad and toss."
      source := some "Default Recipe"
      meal_type := none }
  else
    { recipe_name := some "Grilled Chicken with Vegetables"
      description := some "Simple and satisfying protein with seasonal vegetables"
      ingredients := ["2 chicken breasts",
        "2 cups mixed vegetables (broccoli, carrots, bell peppers)",
        "2 tbsp olive oil", "Salt, pepper, garlic powder"]
      nutritional_info := some
        { calories := some 450, protein := some 40, carbs := some 15,
          fat := some 25 }
      preparation_time := some "30 mins"
      instructions := some "1. Season chicken with salt, pepper, and garlic powder. 2. Heat oil in a pan over medium heat. 3. Cook chicken for 6-7 minutes per side. 4. Steam or roast vegetables until tender. 5. Serve together."
      source := some "Default Recipe"
      meal_type := none }

/-- The fixed warning attached to every fallback plan (line 350). -/
def fallbackWarning : String :=
  "I encountered an issue generating your custom meal plan. Here\x27s a balanced 3-day meal plan to get you started. Please try again with a simpler request if you need something specific."

/-- Environment of one `generate` call: the outcome of the external LLM
parse call, plus the ambient values `datetime.now().date()` (as a day
ordinal), `datetime.now()` (as a timestamp ordinal) and the two uuids drawn. -/
structure GenEnv where
  llmParse : Option LlmParsed
  startDate : Nat
  now : Nat
  uuid : String
deriving Repr, DecidableEq

/-- `MealPlanGenerator._generate_fallback_meal_plan` (lines 280-361): the
static 3-day × breakfast/lunch/dinner plan with hardcoded summary and fixed
warning.  It makes no external calls (its result depends only on the ambient
date/uuid values) and cannot fail. -/
def generateFallbackMealPlan (query : Option String) (_error_message : String)
    (env : GenEnv) : Response :=
  let _q := match query with
    | none => "meal plan"
    | some s => if s = "" then "meal plan" else s
  let meal_plan := [1, 2, 3].map (fun day =>
    { day := day
      date := env.startDate + (day - 1)
      meals := ["breakfast", "lunch", "dinner"].map (fun mt =>
        { fallbackDefaultRecipe mt with meal_type := some mt }) })
  { meal_plan_id := env.uuid
    duration_days := 3
    generated_at := env.now
    meal_plan := meal_plan
    summary :=
      { total_meals := 9
        dietary_compliance := ["standard"]
        estimated_cost := "$25-35"
        avg_prep_time := "18 mins" }
    warning := some fallbackWarning }

/-! ### RecipeService (recipe_service.py) and the generate entry point -/

/-- The instance attributes that `RecipeService.__init__` (recipe_service.py
lines 16-20) creates.  There is no `strategy` attribute. -/
def RecipeService.instanceAttrs : List String :=
  ["client", "cache", "used_recipes"]

/-- The keyword parameters accepted by `RecipeService.__init__`
(recipe_service.py line 16: `def __init__(self)`).  There is no
`strategy_mode` parameter, so `MealPlanGenerator.__init__`
(meal_generator.py line 17), which calls
`RecipeService(strategy_mode=strategy_mode)`, raises `TypeError`. -/
def RecipeService.initKeywordParams : List String := []

/-- State of a `RecipeService` instance: the TTL cache and the used-recipes
set (the OpenAI client handle is external and carries no modelled state). -/
structure RecipeService where
  cache : List (String × Meal)
  used_recipes : List String
deriving Repr, DecidableEq

/-- `RecipeService.reset_used_recipes` (lines 247-249). -/
def RecipeService.resetUsedRecipes (svc : RecipeService) : RecipeService :=
  { svc with used_recipes := [] }

/-- The value of the expression `self.recipe_service.strategy`.  Because
`RecipeService.__init__` creates no `strategy` attribute (see
`RecipeService.instanceAttrs`), Python raises `AttributeError` before the
surrounding `hasattr(...)` call is entered; there is no value this attribute
access can produce, which the empty result type records. -/
inductive StrategyAttr : Type

/-- Attribute access `self.recipe_service.strategy`
(meal_generator.py line 151). -/
def RecipeService.strategyAttr (_svc : RecipeService) :
    Except PyErr StrategyAttr :=
  Except.error (PyErr.attributeError
    "RecipeService object has no attribute strategy")

/-- The body of the `try:` block of `MealPlanGenerator.generate`
(meal_generator.py lines 120-222).  Steps in source order: parse (never
raises), resolve contradictions, clamp the duration, reset the used-recipe
tracker, compute the meal configuration, then dereference
`self.recipe_service.strategy` — which raises, so the plan-building code of
lines 152-222 is unreachable (expressed by the empty `StrategyAttr`
continuation). -/
def generateBody (svc : RecipeService) (q : String) (env : GenEnv) :
    Except PyErr Response :=
  let parsed0 := QueryParser.parse q env.llmParse
  let resolved := resolveContradictions parsed0
  let parsed := resolved.1
  let _warning_message := resolved.2
  let d0 := parsed.duration_days
  let d1 := if d0 > 7 then 7 else d0
  let _duration_days := if d1 < 1 then 1 else d1
  let svc := svc.resetUsedRecipes
  let meals_per_day := parsed.meals_per_day.getD 3
  let _meal_types := parsed.meal_types.take meals_per_day.toNat
  (svc.strategyAttr).bind (fun s => nomatch s)

/-- `MealPlanGenerator.generate` (lines 109-232): the whole body runs inside
one `try/except Exception`; any exception is replaced by the static fallback
plan.  As a total function it never raises. -/
def generate (svc : RecipeService) (q : String) (env : GenEnv) : Response :=
  match generateBody svc q env with
  | Except.ok r => r
  | Except.error e =>
      let msg := match e with
        | PyErr.attributeError m => m
        | PyErr.typeError m => m
        | PyErr.other m => m
      let error_msg :=
        if msg = "" then "Unknown error during meal plan generation" else msg
      generateFallbackMealPlan (some q) error_msg env

/-! ### LLMOnlyStrategy (recipe_generation/llm_only.py)

The prompt strings built by `generate_recipe` / `generate_day_meals` only feed
the external OpenAI call, whose outcome is an explicit parameter here, so they
do not influence any modelled observable.  The strategy state is the
`used_recipes` set, modelled as an insertion-ordered duplicate-free list. -/

/-- Instructions field of an LLM recipe payload: the code accepts either a
string or a list of strings (llm_only.py lines 317-320). -/
inductive JsonText where
  | str : String → JsonText
  | arr : List String → JsonText
deriving Repr, DecidableEq

/-- A single-recipe JSON object as decoded from the LLM response; absent keys
are `none`.  A non-list `ingredients` value is folded into `none`, which the
code treats identically (line 311). -/
structure RecipeJson where
  recipe_name : Option String
  description : Option String
  ingredients : Option (List String)
  nutritional_info : Option Nutrition
  preparation_time : Option String
  instructions : Option JsonText
  source : Option String
deriving Repr, DecidableEq

/-- `LLMOnlyStrategy._validate_recipe` (lines 305-324): fill every missing
field with its default and stamp the meal type. -/
def llmValidateRecipe (r : RecipeJson) (meal_type : String) : Meal :=
  { recipe_name := some (r.recipe_name.getD (pyCapitalize meal_type ++ " Recipe"))
    description := some (r.description.getD
      ("A delicious " ++ meal_type ++ " option."))
    ingredients := r.ingredients.getD ["Ingredients to be determined"]
    nutritional_info := some (r.nutritional_info.getD
      { calories := some 400, protein := some 20, carbs := some 50,
        fat := some 10 })
    preparation_time := some (r.preparation_time.getD "30 mins")
    instructions := some
      (match r.instructions with
        | none => "Follow standard cooking procedures."
        | some (JsonText.str s) => s
        | some (JsonText.arr l) => String.intercalate "\n" l)
    source := some (r.source.getD "AI Generated")
    meal_type := some meal_type }

/-- `LLMOnlyStrategy._generate_fallback_recipe` (lines 326-362).
`str.replace` substitutes every occurrence of `"milk"`. -/
def llmFallbackRecipe (meal_type : String) (dietary_restrictions : List String) :
    Meal :=
  let base : Meal :=
    if meal_type = "breakfast" then
      { recipe_name := some "Healthy Breakfast Bowl"
        description := some "A nutritious and filling breakfast option."
        ingredients := ["1 cup oats", "1 cup milk or plant-based milk",
          "1 banana", "1 tbsp honey"]
        nutritional_info := some
          { calories := some 350, protein := some 12, carbs := some 60,
            fat := some 8 }
        preparation_time := some "10 mins"
        instructions := some "1. Cook oats with milk. 2. Slice banana on top. 3. Drizzle with honey."
        source := some "AI Generated (Fallback)"
        meal_type := none }
    else if meal_type = "lunch" then
      { recipe_name := some "Fresh Salad Bowl"
        description := some "A light and healthy lunch option."
        ingredients := ["2 cups mixed greens", "1/2 cup cherry tomatoes",
          "1/4 cup dressing", "1/4 cup nuts"]
        nutritional_info := some
          { calories := some 300, protein := some 10, carbs := some 20,
            fat := some 20 }
        preparation_time := some "15 mins"
        instructions := some "1. Wash and prepare greens. 2. Add tomatoes. 3. Toss with dressing. 4. Top with nuts."
        source := some "AI Generated (Fallback)"
        meal_type := none }
    else
      { recipe_name := some "Balanced Dinner Plate"
        description := some "A well-rounded dinner option."
        ingredients := ["1 protein portion", "1 cup vegetables",
          "1/2 cup grains", "1 tbsp oil"]
        nutritional_info := some
          { calories := some 500, protein := some 30, carbs := some 45,
            fat := some 15 }
        preparation_time := some "30 mins"
        instructions := some "1. Cook protein. 2. Prepare vegetables. 3. Cook grains. 4. Plate together."
        source := some "AI Generated (Fallback)"
        meal_type := none }
  let base :=
    if "vegan" ∈ dietary_restrictions ∨ "vegetarian" ∈ dietary_restrictions
    then { base with ingredients :=
      base.ingredients.map (fun ing => pyReplace ing "milk" "plant-based milk") }
    else base
  { base with meal_type := some meal_type }

/-- `LLMOnlyStrategy.reset` (lines 84-86). -/
def llmOnlyReset (_used_recipes : List String) : List String := []

/-- `LLMOnlyStrategy.generate_recipe` (lines 208-303), restricted to its
observables: the returned recipe and the updated `used_recipes` state.
`llm = none` is the `except` path returning the static fallback without
touching the state.  On success the lowercased recipe name is added and, when
the set exceeds 50 entries, it is trimmed to 50 (`set(list(...)[-50:])`,
lines 291-297); in this insertion-ordered model the trim keeps the most
recent 50, while CPython drops an unspecified subset of the same size. -/
def llmGenerateRecipe (llm : Option RecipeJson) (meal_type : String)
    (dietary_restrictions : List String) (used_recipes : List String) :
    Meal × List String :=
  match llm with
  | none => (llmFallbackRecipe meal_type dietary_restrictions, used_recipes)
  | some r =>
      let recipe := llmValidateRecipe r meal_type
      let recipe_name := pyLower (recipe.recipe_name.getD "")
      if recipe_name ≠ "" then
        let added := pySetAdd used_recipes recipe_name
        let trimmed :=
          if added.length > 50 then added.drop (added.length - 50) else added
        (recipe, trimmed)
      else (recipe, used_recipes)

/-- Success-path loop of `generate_day_meals` (lines 170-181): validate the
first `len(meal_types)` recipes, stamp meal types, and add every nonempty
lowercased name to `used_recipes` with **no** cap enforcement. -/
def dayMealsLoop : List RecipeJson → List String → List String →
    List Meal × List String
  | _, [], used => ([], used)
  | [], _ :: _, used => ([], used)
  | r :: rs, mt :: mts, used =>
      let recipe := llmValidateRecipe r mt
      let recipe_name := pyLower (recipe.recipe_name.getD "")
      let used1 := if recipe_name ≠ "" then pySetAdd used recipe_name else used
      let rest := dayMealsLoop rs mts used1
      (recipe :: rest.1, rest.2)

/-- Exception-path loop of `generate_day_meals` (lines 191-206): generate each
meal individually; `outcomes` supplies the external result of each inner
`generate_recipe` call. -/
def dayMealsFallbackLoop : List String → List (Option RecipeJson) →
    List String → List String → List Meal × List String
  | [], _, _, used => ([], used)
  | mt :: mts, outcomes, dietary_restrictions, used =>
      let o := (outcomes.head?).getD none
      let step := llmGenerateRecipe o mt dietary_restrictions used
      let rest := dayMealsFallbackLoop mts (outcomes.drop 1)
        dietary_restrictions step.2
      (step.1 :: rest.1, rest.2)

/-- `LLMOnlyStrategy.generate_day_meals` (lines 88-206).  `llm` is the batch
call outcome; when it fails (`none`), `fallbackOutcomes` supplies the
outcomes of the per-meal retries.  Missing slots of a successful batch are
padded with static fallback recipes (lines 183-187). -/
def llmGenerateDayMeals (llm : Option (List RecipeJson))
    (fallbackOutcomes : List (Option RecipeJson)) (meal_types : List String)
    (dietary_restrictions : List String) (used_recipes : List String) :
    List Meal × List String :=
  match llm with
  | some recipes =>
      let loop := dayMealsLoop recipes meal_types used_recipes
      let validated := loop.1
      let pad := (meal_types.drop validated.length).map
        (fun mt => { llmFallbackRecipe mt dietary_restrictions with
          meal_type := some mt })
      (validated ++ pad, loop.2)
  | none =>
      dayMealsFallbackLoop meal_types fallbackOutcomes dietary_restrictions
        used_recipes

/-! ### HybridStrategy constructor (recipe_generation/hybrid_strategy.py) -/

/-- `getattr(settings, 'hybrid_rag_ratio', 0.7)`: config.py defines
`hybrid_rag_ratio` with default 0.7 (modelled as the exact rational 7/10). -/
def hybridSettingsRagRatio : Rat := 7 / 10

/-- `HybridStrategy.__init__` lines 29-32, restricted to the effective ratio:
`self.rag_ratio = rag_ratio or getattr(settings, 'hybrid_rag_ratio', 0.7)`
followed by `max(0.0, min(1.0, self.rag_ratio))`.  Python `or` yields the
right operand whenever the left is falsy, i.e. for `None` **and** for `0.0`. -/
def hybridInitRagRatio (rag_ratio : Option Rat) : Rat :=
  let r : Rat :=
    match rag_ratio with
    | none => hybridSettingsRagRatio
    | some x => if x = 0 then hybridSettingsRagRatio else x
  max 0 (min 1 r)

/-! ### Spec-side definitions (for refinement comparisons)

These two definitions follow the wording of the specification, not the code;
they exist solely to be compared against `calculateSummary`. -/

/-- All meals of a plan in order. -/
def allMeals (meal_plan : List DayPlan) : List Meal :=
  (meal_plan.map (fun d => d.meals)).flatten

/-- Modelled from the spec: "avg_prep_time = floor(mean of leading integer
parsed from each meal's preparation-time text, defaulting unparseable entries
to 30) formatted as 'N mins'". -/
def specAvgPrepTime (meal_plan : List DayPlan) : String :=
  let vals := (allMeals meal_plan).map
    (fun m => (firstNumberIn (m.preparation_time.getD "30 mins")).getD 30)
  toString (vals.sum / vals.length) ++ " mins"

/-- The amended description of the code's behaviour: meals whose
preparation-time text contains no digit are skipped (not defaulted to 30); a
missing key contributes the text "30 mins" and hence the value 30; if no meal
contributes a number the result is the hardcoded "25 mins". -/
def amendedAvgPrepTime (meal_plan : List DayPlan) : String :=
  let vals := (allMeals meal_plan).filterMap
    (fun m => firstNumberIn (m.preparation_time.getD "30 mins"))
  if vals = [] then "25 mins"
  else toString (vals.sum / vals.length) ++ " mins"

/-! ### Concrete instances used by the claim theorems -/

/-- An otherwise empty parsed dictionary with the given duration. -/
def mkParsed (d : Int) : Parsed :=
  { duration_days := d, meals_per_day := none, meal_types := []
    dietary_restrictions := [], preferences := [], special_requirements := []
    contradictions := [], prep_time_max := none }

/-- Concrete parsed query carrying one detected contradiction. -/
def c4Parsed : Parsed :=
  { mkParsed 3 with dietary_restrictions := ["keto"]
                    preferences := ["high-carb"]
                    contradictions := ["keto and high-carb"] }

/-- A meal whose preparation-time text has no digit. -/
def c10Meal : Meal :=
  { recipe_name := none, description := none, ingredients := []
    nutritional_info := none, preparation_time := some "fast"
    instructions := none, source := none, meal_type := none }

/-- A one-meal plan exercising the unparseable prep-time path. -/
def c10Plan : List DayPlan := [{ day := 1, date := 0, meals := [c10Meal] }]

/-- A recipe service state with empty cache and tracker. -/
def svc0 : RecipeService := { cache := [], used_recipes := [] }

/-- A call environment in which the external LLM parse call fails. -/
def env0 : GenEnv := { llmParse := none, startDate := 0, now := 0, uuid := "u" }

/-- The LLM parse outcome used by the repo's own duration-capping test:
a 10-day request (tests/test_meal_generator.py, test_duration_capping). -/
def c3Llm : LlmParsed :=
  { duration_days := some 10, meals_per_day := none, meal_types := []
    dietary_restrictions := [], preferences := [], special_requirements := []
    contradictions := [] }

/-- Environment for the C3 failing input. -/
def c3Env : GenEnv :=
  { llmParse := some c3Llm, startDate := 0, now := 0, uuid := "plan-1" }

/-- A minimal successful single-recipe LLM payload with the given name. -/
def c8Recipe (n : String) : RecipeJson :=
  { recipe_name := some n, description := none, ingredients := none
    nutritional_info := none, preparation_time := none, instructions := none
    source := none }

/-- Fifty distinct lowercase recipe names. -/
def c8Names : List String := (List.range 50).map (fun i => "r" ++ toString i)

/-- The tracker state after fifty successful `generate_recipe` calls from a
fresh strategy instance (each one respects the cap). -/
def c8Used : List String :=
  c8Names.foldl
    (fun st n => (llmGenerateRecipe (some (c8Recipe n)) "lunch" [] st).2) []

/-- The query of the C9 counterexample: both a budget keyword and a quick
keyword occur. -/
def c9Query : String := "cheap quick meals"

/-- The eight contradiction strings that detection can ever produce: both
orders of the four known pairs. -/
def tableStrings : List String :=
  ["vegan and pescatarian", "pescatarian and vegan",
   "vegan and vegetarian", "vegetarian and vegan",
   "keto and high-carb", "high-carb and keto",
   "low-carb and high-carb", "high-carb and low-carb"]

/-- The effect of `_validate_budget` on `special_requirements`, as a function
of the extracted budget level. -/
def budgetRewrite (bl : Option String) (s : List String) : List String :=
  match bl with
  | none => s
  | some lvl =>
      if "budget_level" ∈ s then s
      else (s.filter (fun r => ¬ r ∈ budgetWords)) ++ [lvl]

/-- The effect of `_validate_prep_time` on `special_requirements`, as a
function of the extracted prep-time bound. -/
def prepRewrite (pt : Option Nat) (s : List String) : List String :=
  match pt with
  | none => s
  | some n =>
      if n ≠ 0 then
        if ¬ "quick-meals" ∈ s ∧ n ≤ 30 then s ++ ["quick-meals"] else s
      else s

/-! ### Helper lemmas -/

set_option maxRecDepth 40000

theorem mem_pyDedupAux {x : String} :
    ∀ (l : List String) (seen : List String),
      x ∈ pyDedupAux seen l ↔ x ∈ l ∧ x ∉ seen := by
  intro l
  induction l with
  | nil => intro seen; simp [pyDedupAux]
  | cons y ys ih =>
      intro seen
      by_cases hy : y ∈ seen
      · simp only [pyDedupAux, if_pos hy, ih, List.mem_cons]
        constructor
        · rintro ⟨h1, h2⟩; exact ⟨Or.inr h1, h2⟩
        · rintro ⟨rfl | h1, h2⟩
          · exact absurd hy h2
          · exact ⟨h1, h2⟩
      · simp only [pyDedupAux, if_neg hy, List.mem_cons, ih]
        constructor
        · rintro (rfl | ⟨h1, h2⟩)
          · exact ⟨Or.inl rfl, hy⟩
          · exact ⟨Or.inr h1, fun hs => h2 (Or.inr hs)⟩
        · rintro ⟨rfl | h1, h2⟩
          · exact Or.inl rfl
          · by_cases hxy : x = y
            · exact Or.inl hxy
            · exact Or.inr ⟨h1, fun hs => hs.elim hxy h2⟩

theorem mem_pyDedup {x : String} {l : List String} :
    x ∈ pyDedup l ↔ x ∈ l := by
  simp [pyDedup, mem_pyDedupAux]

theorem pyDedupAux_nil_of_seen {ys seen : List String}
    (h : ∀ y ∈ ys, y ∈ seen) : pyDedupAux seen ys = [] := by
  induction ys with
  | nil => rfl
  | cons y ys ih =>
      have hy : y ∈ seen := h y (List.mem_cons_self y ys)
      simp only [pyDedupAux, if_pos hy]
      exact ih (fun z hz => h z (List.mem_cons_of_mem _ hz))

theorem pyDedupAux_append {ys : List String} :
    ∀ (l seen : List String), (∀ y ∈ ys, y ∈ l ∨ y ∈ seen) →
      pyDedupAux seen (l ++ ys) = pyDedupAux seen l := by
  intro l
  induction l with
  | nil =>
      intro seen h
      simp only [List.nil_append, pyDedupAux]
      exact pyDedupAux_nil_of_seen (fun y hy =>
        (h y hy).resolve_left (fun hf => absurd hf (List.not_mem_nil y)))
  | cons a l ih =>
      intro seen h
      by_cases ha : a ∈ seen
      · simp only [List.cons_append, pyDedupAux, if_pos ha]
        refine ih seen (fun y hy => ?_)
        rcases h y hy with hm | hs
        · rcases List.mem_cons.mp hm with rfl | hm
          · exact Or.inr ha
          · exact Or.inl hm
        · exact Or.inr hs
      · simp only [List.cons_append, pyDedupAux, if_neg ha]
        congr 1
        refine ih (a :: seen) (fun y hy => ?_)
        rcases h y hy with hm | hs
        · rcases List.mem_cons.mp hm with rfl | hm
          · exact Or.inr (List.mem_cons_self _ _)
          · exact Or.inl hm
        · exact Or.inr (List.mem_cons_of_mem _ hs)

theorem pyDedup_append {l ys : List String} (h : ∀ y ∈ ys, y ∈ l) :
    pyDedup (l ++ ys) = pyDedup l :=
  pyDedupAux_append l [] (fun y hy => Or.inl (h y hy))

theorem nodup_pyDedupAux :
    ∀ (l seen : List String), (pyDedupAux seen l).Nodup := by
  intro l
  induction l with
  | nil => intro seen; simp [pyDedupAux]
  | cons y ys ih =>
      intro seen
      by_cases hy : y ∈ seen
      · simpa [pyDedupAux, hy] using ih seen
      · simp only [pyDedupAux, if_neg hy, List.nodup_cons]
        refine ⟨fun hmem => ?_, ih (y :: seen)⟩
        exact ((mem_pyDedupAux ys (y :: seen)).mp hmem).2
          (List.mem_cons_self _ _)

theorem not_mem_seen_pyDedupAux {x : String} {l seen : List String}
    (h : x ∈ seen) : x ∉ pyDedupAux seen l := by
  intro hmem
  exact ((mem_pyDedupAux l seen).mp hmem).2 h

theorem pyDedupAux_eq_self :
    ∀ (l seen : List String), l.Nodup → (∀ x ∈ l, x ∉ seen) →
      pyDedupAux seen l = l := by
  intro l
  induction l with
  | nil => intro seen _ _; rfl
  | cons y ys ih =>
      intro seen hnd hdisj
      have hy : y ∉ seen := hdisj y (List.mem_cons_self _ _)
      simp only [pyDedupAux, if_neg hy]
      congr 1
      refine ih (y :: seen) (List.nodup_cons.mp hnd).2 (fun x hx hmem => ?_)
      rcases List.mem_cons.mp hmem with rfl | hmem
      · exact (List.nodup_cons.mp hnd).1 hx
      · exact hdisj x (List.mem_cons_of_mem _ hx) hmem

theorem pyDedup_idem {l : List String} : pyDedup (pyDedup l) = pyDedup l :=
  pyDedupAux_eq_self (pyDedup l) [] (nodup_pyDedupAux l [])
    (fun x _ h => (List.not_mem_nil x) h)

theorem pyDedup_append_pyDedup {l ys : List String}
    (h : ∀ y ∈ ys, y ∈ l) : pyDedup (pyDedup l ++ ys) = pyDedup l := by
  have h1 : pyDedup (pyDedup l ++ ys) = pyDedup (pyDedup l) :=
    pyDedup_append (fun y hy => mem_pyDedup.mpr (h y hy))
  rw [h1, pyDedup_idem]

theorem pyDedup_ne_nil {l : List String} (h : l ≠ []) : pyDedup l ≠ [] := by
  cases l with
  | nil => exact absurd rfl h
  | cons x xs =>
      simp only [pyDedup, pyDedupAux, List.not_mem_nil, if_neg]
      exact fun hf => by simp at hf

theorem isPrefixOf_append_of {p s : List Char} (t : List Char)
    (h : p.isPrefixOf s = true) : p.isPrefixOf (s ++ t) = true := by
  rw [List.isPrefixOf_iff_prefix] at h ⊢
  exact h.trans (List.prefix_append s t)

theorem subListOf_append_right {pat s : List Char} (t : List Char)
    (h : subListOf pat s = true) : subListOf pat (s ++ t) = true := by
  induction s with
  | nil =>
      simp only [subListOf, List.isEmpty_iff] at h
      subst h
      cases t with
      | nil => rfl
      | cons c cs =>
          simp only [List.nil_append, subListOf, Bool.or_eq_true]
          exact Or.inl (by rw [List.isPrefixOf_iff_prefix]; exact List.nil_prefix)
  | cons c cs ih =>
      simp only [subListOf, Bool.or_eq_true] at h ⊢
      rcases h with h | h
      · exact Or.inl (isPrefixOf_append_of t h)
      · exact Or.inr (ih h)

theorem subListOf_append_left {pat s : List Char} (t : List Char)
    (h : subListOf pat s = true) : subListOf pat (t ++ s) = true := by
  induction t with
  | nil => simpa using h
  | cons c cs ih =>
      simp only [List.cons_append, subListOf, Bool.or_eq_true]
      exact Or.inr ih

theorem subListOf_refl (pat : List Char) : subListOf pat pat = true := by
  cases pat with
  | nil => rfl
  | cons c cs =>
      simp only [subListOf, Bool.or_eq_true]
      exact Or.inl (by rw [List.isPrefixOf_iff_prefix])

theorem containsSubstr_joinComma {x : String} :
    ∀ {l : List String}, x ∈ l → containsSubstr (joinComma l) x = true := by
  intro l
  induction l with
  | nil => intro h; exact absurd h (List.not_mem_nil x)
  | cons y ys ih =>
      intro h
      rcases List.mem_cons.mp h with rfl | h
      · cases ys with
        | nil => exact subListOf_refl x.data
        | cons z zs =>
            show subListOf x.data (x ++ ", " ++ joinComma (z :: zs)).data = true
            have h1 : subListOf x.data (x ++ ", ").data = true := by
              rw [String.data_append]
              exact subListOf_append_right _ (subListOf_refl x.data)
            rw [String.data_append]
            exact subListOf_append_right _ h1
      · cases ys with
        | nil => exact absurd h (List.not_mem_nil x)
        | cons z zs =>
            show subListOf x.data (y ++ ", " ++ joinComma (z :: zs)).data = true
            rw [String.data_append]
            exact subListOf_append_left _ (ih h)

theorem containsSubstr_append_right {s t pat : String}
    (h : containsSubstr s pat = true) : containsSubstr (s ++ t) pat = true := by
  show subListOf pat.data (s ++ t).data = true
  rw [String.data_append]
  exact subListOf_append_right _ h

theorem containsSubstr_append_left {s t pat : String}
    (h : containsSubstr s pat = true) : containsSubstr (t ++ s) pat = true := by
  show subListOf pat.data (t ++ s).data = true
  rw [String.data_append]
  exact subListOf_append_left _ h

theorem foldl_collect_mono {α : Type} {g : α → List String} {y : String} :
    ∀ (l : List α) (acc : List String), y ∈ acc →
      y ∈ l.foldl (fun a r => a ++ g r) acc := by
  intro l
  induction l with
  | nil => intro acc h; exact h
  | cons z zs ih =>
      intro acc h
      exact ih _ (List.mem_append.mpr (Or.inl h))

theorem foldl_collect_mem {α : Type} {g : α → List String} {x : α} :
    ∀ (l : List α) (acc : List String), x ∈ l →
      ∀ y ∈ g x, y ∈ l.foldl (fun a r => a ++ g r) acc := by
  intro l
  induction l with
  | nil => intro acc h; exact absurd h (List.not_mem_nil x)
  | cons z zs ih =>
      intro acc h y hy
      rcases List.mem_cons.mp h with rfl | h
      · exact foldl_collect_mono zs _ (List.mem_append.mpr (Or.inr hy))
      · exact ih _ h y hy

theorem foldl_collect_sub {α : Type} {g : α → List String} :
    ∀ (l : List α) (acc : List String) (y : String),
      y ∈ l.foldl (fun a r => a ++ g r) acc →
      y ∈ acc ∨ ∃ r ∈ l, y ∈ g r := by
  intro l
  induction l with
  | nil => intro acc y h; exact Or.inl h
  | cons z zs ih =>
      intro acc y h
      rcases ih _ y h with h1 | ⟨r, hr, hy⟩
      · rcases List.mem_append.mp h1 with h2 | h2
        · exact Or.inl h2
        · exact Or.inr ⟨z, List.mem_cons_self _ _, h2⟩
      · exact Or.inr ⟨r, List.mem_cons_of_mem _ hr, hy⟩

/-! ### Validator shape lemmas: each validator only edits its own fields. -/

theorem validateMealCount_shape (q : String) (p : Parsed) :
    ∃ a b, (validateMealCount q p).1 =
      { p with meals_per_day := a, meal_types := b } := by
  unfold validateMealCount
  dsimp only
  cases hnm : reSearchNumMeals (pyLower q) with
  | some n =>
      dsimp only
      by_cases h : 1 ≤ n ∧ n ≤ 4
      · rw [if_pos h]; exact ⟨_, _, rfl⟩
      · rw [if_neg h]; exact ⟨_, _, rfl⟩
  | none =>
      dsimp only
      by_cases hm : mealTypesMentioned (pyLower q) ≠ []
      · rw [if_pos hm]; exact ⟨_, _, rfl⟩
      · rw [if_neg hm]
        by_cases ho : containsSubstr (pyLower q) "only" = true
        · rw [if_pos ho]
          by_cases hb : containsSubstr (pyLower q) "breakfast" = true
          · rw [if_pos hb]; exact ⟨_, _, rfl⟩
          · rw [if_neg hb]
            by_cases hl : containsSubstr (pyLower q) "lunch" = true
            · rw [if_pos hl]; exact ⟨_, _, rfl⟩
            · rw [if_neg hl]
              by_cases hd : containsSubstr (pyLower q) "dinner" = true
              · rw [if_pos hd]; exact ⟨_, _, rfl⟩
              · rw [if_neg hd]
                dsimp only
                cases hmp : p.meals_per_day with
                | some k => exact ⟨_, _, rfl⟩
                | none => exact ⟨_, _, rfl⟩
        · rw [if_neg ho]
          dsimp only
          cases hmp : p.meals_per_day with
          | some k => exact ⟨_, _, rfl⟩
          | none => exact ⟨_, _, rfl⟩

theorem validateDuration_shape (q : String) (p : Parsed) :
    ∃ a, (validateDuration q p).1 = { p with duration_days := a } := by
  unfold validateDuration
  dsimp only
  repeat' first | split | dsimp only
  all_goals exact ⟨_, rfl⟩

theorem validateDietaryRestrictions_id (q : String) (p : Parsed) :
    (validateDietaryRestrictions q p).1 = p := by
  unfold validateDietaryRestrictions
  split <;> rfl

theorem validateContradictions_shape (q : String) (p : Parsed) :
    ∃ a, (validateContradictions q p).1 = { p with contradictions := a } := by
  unfold validateContradictions
  dsimp only
  repeat' first | split | dsimp only
  all_goals exact ⟨_, rfl⟩

theorem validateBudget_shape (q : String) (p : Parsed) :
    ∃ a, (validateBudget q p).1 =
      { p with special_requirements := a } := by
  unfold validateBudget
  dsimp only
  repeat' first | split | dsimp only
  all_goals exact ⟨_, rfl⟩

theorem validatePrepTime_shape (q : String) (p : Parsed) :
    ∃ a b, (validatePrepTime q p).1 =
      { p with special_requirements := a, prep_time_max := b } := by
  unfold validatePrepTime
  dsimp only
  repeat' first | split | dsimp only
  all_goals exact ⟨_, _, rfl⟩

/-! ### Per-field preservation lemmas (derived from the shapes). -/

@[simp] theorem mc_duration_days (q : String) (p : Parsed) :
    ((validateMealCount q p).1).duration_days = p.duration_days := by
  obtain ⟨a0, a1, h⟩ := validateMealCount_shape q p
  rw [h]

@[simp] theorem mc_dietary_restrictions (q : String) (p : Parsed) :
    ((validateMealCount q p).1).dietary_restrictions = p.dietary_restrictions := by
  obtain ⟨a0, a1, h⟩ := validateMealCount_shape q p
  rw [h]

@[simp] theorem mc_preferences (q : String) (p : Parsed) :
    ((validateMealCount q p).1).preferences = p.preferences := by
  obtain ⟨a0, a1, h⟩ := validateMealCount_shape q p
  rw [h]

@[simp] theorem mc_special_requirements (q : String) (p : Parsed) :
    ((validateMealCount q p).1).special_requirements = p.special_requirements := by
  obtain ⟨a0, a1, h⟩ := validateMealCount_shape q p
  rw [h]

@[simp] theorem mc_contradictions (q : String) (p : Parsed) :
    ((validateMealCount q p).1).contradictions = p.contradictions := by
  obtain ⟨a0, a1, h⟩ := validateMealCount_shape q p
  rw [h]

@[simp] theorem mc_prep_time_max (q : String) (p : Parsed) :
    ((validateMealCount q p).1).prep_time_max = p.prep_time_max := by
  obtain ⟨a0, a1, h⟩ := validateMealCount_shape q p
  rw [h]

@[simp] theorem vdur_meals_per_day (q : String) (p : Parsed) :
    ((validateDuration q p).1).meals_per_day = p.meals_per_day := by
  obtain ⟨a0, h⟩ := validateDuration_shape q p
  rw [h]

@[simp] theorem vdur_meal_types (q : String) (p : Parsed) :
    ((validateDuration q p).1).meal_types = p.meal_types := by
  obtain ⟨a0, h⟩ := validateDuration_shape q p
  rw [h]

@[simp] theorem vdur_dietary_restrictions (q : String) (p : Parsed) :
    ((validateDuration q p).1).dietary_restrictions = p.dietary_restrictions := by
  obtain ⟨a0, h⟩ := validateDuration_shape q p
  rw [h]

@[simp] theorem vdur_preferences (q : String) (p : Parsed) :
    ((validateDuration q p).1).preferences = p.preferences := by
  obtain ⟨a0, h⟩ := validateDuration_shape q p
  rw [h]

@[simp] theorem vdur_special_requirements (q : String) (p : Parsed) :
    ((validateDuration q p).1).special_requirements = p.special_requirements := by
  obtain ⟨a0, h⟩ := validateDuration_shape q p
  rw [h]

@[simp] theorem vdur_contradictions (q : String) (p : Parsed) :
    ((validateDuration q p).1).contradictions = p.contradictions := by
  obtain ⟨a0, h⟩ := validateDuration_shape q p
  rw [h]

@[simp] theorem vdur_prep_time_max (q : String) (p : Parsed) :
    ((validateDuration q p).1).prep_time_max = p.prep_time_max := by
  obtain ⟨a0, h⟩ := validateDuration_shape q p
  rw [h]

@[simp] theorem vcontr_duration_days (q : String) (p : Parsed) :
    ((validateContradictions q p).1).duration_days = p.duration_days := by
  obtain ⟨a0, h⟩ := validateContradictions_shape q p
  rw [h]

@[simp] theorem vcontr_meals_per_day (q : String) (p : Parsed) :
    ((validateContradictions q p).1).meals_per_day = p.meals_per_day := by
  obtain ⟨a0, h⟩ := validateContradictions_shape q p
  rw [h]

@[simp] theorem vcontr_meal_types (q : String) (p : Parsed) :
    ((validateContradictions q p).1).meal_types = p.meal_types := by
  obtain ⟨a0, h⟩ := validateContradictions_shape q p
  rw [h]

@[simp] theorem vcontr_dietary_restrictions (q : String) (p : Parsed) :
    ((validateContradictions q p).1).dietary_restrictions = p.dietary_restrictions := by
  obtain ⟨a0, h⟩ := validateContradictions_shape q p
  rw [h]

@[simp] theorem vcontr_preferences (q : String) (p : Parsed) :
    ((validateContradictions q p).1).preferences = p.preferences := by
  obtain ⟨a0, h⟩ := validateContradictions_shape q p
  rw [h]

@[simp] theorem vcontr_special_requirements (q : String) (p : Parsed) :
    ((validateContradictions q p).1).special_requirements = p.special_requirements := by
  obtain ⟨a0, h⟩ := validateContradictions_shape q p
  rw [h]

@[simp] theorem vcontr_prep_time_max (q : String) (p : Parsed) :
    ((validateContradictions q p).1).prep_time_max = p.prep_time_max := by
  obtain ⟨a0, h⟩ := validateContradictions_shape q p
  rw [h]

@[simp] theorem vbud_duration_days (q : String) (p : Parsed) :
    ((validateBudget q p).1).duration_days = p.duration_days := by
  obtain ⟨a0, h⟩ := validateBudget_shape q p
  rw [h]

@[simp] theorem vbud_meals_per_day (q : String) (p : Parsed) :
    ((validateBudget q p).1).meals_per_day = p.meals_per_day := by
  obtain ⟨a0, h⟩ := validateBudget_shape q p
  rw [h]

@[simp] theorem vbud_meal_types (q : String) (p : Parsed) :
    ((validateBudget q p).1).meal_types = p.meal_types := by
  obtain ⟨a0, h⟩ := validateBudget_shape q p
  rw [h]

@[simp] theorem vbud_dietary_restrictions (q : String) (p : Parsed) :
    ((validateBudget q p).1).dietary_restrictions = p.dietary_restrictions := by
  obtain ⟨a0, h⟩ := validateBudget_shape q p
  rw [h]

@[simp] theorem vbud_preferences (q : String) (p : Parsed) :
    ((validateBudget q p).1).preferences = p.preferences := by
  obtain ⟨a0, h⟩ := validateBudget_shape q p
  rw [h]

@[simp] theorem vbud_contradictions (q : String) (p : Parsed) :
    ((validateBudget q p).1).contradictions = p.contradictions := by
  obtain ⟨a0, h⟩ := validateBudget_shape q p
  rw [h]

@[simp] theorem vbud_prep_time_max (q : String) (p : Parsed) :
    ((validateBudget q p).1).prep_time_max = p.prep_time_max := by
  obtain ⟨a0, h⟩ := validateBudget_shape q p
  rw [h]

@[simp] theorem vpt_duration_days (q : String) (p : Parsed) :
    ((validatePrepTime q p).1).duration_days = p.duration_days := by
  obtain ⟨a0, a1, h⟩ := validatePrepTime_shape q p
  rw [h]

@[simp] theorem vpt_meals_per_day (q : String) (p : Parsed) :
    ((validatePrepTime q p).1).meals_per_day = p.meals_per_day := by
  obtain ⟨a0, a1, h⟩ := validatePrepTime_shape q p
  rw [h]

@[simp] theorem vpt_meal_types (q : String) (p : Parsed) :
    ((validatePrepTime q p).1).meal_types = p.meal_types := by
  obtain ⟨a0, a1, h⟩ := validatePrepTime_shape q p
  rw [h]

@[simp] theorem vpt_dietary_restrictions (q : String) (p : Parsed) :
    ((validatePrepTime q p).1).dietary_restrictions = p.dietary_restrictions := by
  obtain ⟨a0, a1, h⟩ := validatePrepTime_shape q p
  rw [h]

@[simp] theorem vpt_preferences (q : String) (p : Parsed) :
    ((validatePrepTime q p).1).preferences = p.preferences := by
  obtain ⟨a0, a1, h⟩ := validatePrepTime_shape q p
  rw [h]

@[simp] theorem vpt_contradictions (q : String) (p : Parsed) :
    ((validatePrepTime q p).1).contradictions = p.contradictions := by
  obtain ⟨a0, a1, h⟩ := validatePrepTime_shape q p
  rw [h]

@[simp] theorem vdiet_id (q : String) (p : Parsed) :
    (validateDietaryRestrictions q p).1 = p :=
  validateDietaryRestrictions_id q p

/-- `QueryValidator.validate` is definitionally the six-validator chain. -/
theorem validate_pipeline (q : String) (p : Parsed) :
    (QueryValidator.validate q p).1 =
      (validatePrepTime q ((validateBudget q ((validateContradictions q
        ((validateDietaryRestrictions q ((validateDuration q
          ((validateMealCount q p).1)).1)).1)).1)).1)).1 := rfl

/-- Value of the duration clamp (query_validator.py lines 127-147). -/
theorem validateDuration_duration (q : String) (p : Parsed) :
    ((validateDuration q p).1).duration_days =
      if p.duration_days < 1 then 1
      else if p.duration_days > 7 then 7
      else p.duration_days := by
  unfold validateDuration
  dsimp only
  split_ifs <;> rfl

/-- Duration after the full validator pipeline: only `_validate_duration`
touches it, and the later validators leave it alone. -/
theorem validate_duration_value (q : String) (p : Parsed) :
    ((QueryValidator.validate q p).1).duration_days =
      if p.duration_days < 1 then 1
      else if p.duration_days > 7 then 7
      else p.duration_days := by
  rw [validate_pipeline]
  simp only [vpt_duration_days, vbud_duration_days, vcontr_duration_days,
    vdiet_id, validateDuration_duration, mc_duration_days]

/-- C6: for every query and parsed dictionary, a requested duration greater
than 7 validates to exactly 7, one smaller than 1 validates to exactly 1, and
a duration already in [1,7] passes through the whole validator pipeline
unchanged (query_validator.py lines 127-147). -/
theorem c6_duration_clamped (q : String) (p : Parsed) :
    (p.duration_days > 7 →
      ((QueryValidator.validate q p).1).duration_days = 7) ∧
    (p.duration_days < 1 →
      ((QueryValidator.validate q p).1).duration_days = 1) ∧
    (1 ≤ p.duration_days → p.duration_days ≤ 7 →
      ((QueryValidator.validate q p).1).duration_days = p.duration_days) := by
  have h := validate_duration_value q p
  refine ⟨fun h7 => ?_, fun h1 => ?_, fun ha hb => ?_⟩ <;> rw [h]
  · rw [if_neg (by omega), if_pos h7]
  · rw [if_pos h1]
  · rw [if_neg (by omega), if_neg (by omega)]

/-- Witness for C6 at durations 10, -2 and 5. -/
theorem c6_duration_clamped_witness :
    ((QueryValidator.validate "meal plan" (mkParsed 10)).1).duration_days = 7 ∧
    ((QueryValidator.validate "meal plan" (mkParsed (-2))).1).duration_days = 1 ∧
    ((QueryValidator.validate "meal plan" (mkParsed 5)).1).duration_days = 5 :=
  ⟨(c6_duration_clamped "meal plan" (mkParsed 10)).1 (by decide),
   (c6_duration_clamped "meal plan" (mkParsed (-2))).2.1 (by decide),
   (c6_duration_clamped "meal plan" (mkParsed 5)).2.2 (by decide) (by decide)⟩

/-- C4: resolving a parsed query with a non-empty contradictions list always
returns an empty contradictions list together with exactly one non-null
warning string, and a query with no contradictions is returned unchanged with
a null warning (meal_generator.py lines 19-107). -/
theorem c4_resolve_clears_and_warns (p : Parsed) :
    (p.contradictions ≠ [] →
      (resolveContradictions p).1.contradictions = [] ∧
      ∃ w, (resolveContradictions p).2 = some w) ∧
    (p.contradictions = [] → resolveContradictions p = (p, none)) := by
  constructor
  · intro h
    unfold resolveContradictions
    rw [if_neg h]
    exact ⟨rfl, ⟨_, rfl⟩⟩
  · intro h
    unfold resolveContradictions
    rw [if_pos h]

/-- Witness for C4: one query with a contradiction, one without. -/
theorem c4_resolve_clears_and_warns_witness :
    ((resolveContradictions c4Parsed).1.contradictions = [] ∧
      ∃ w, (resolveContradictions c4Parsed).2 = some w) ∧
    resolveContradictions (mkParsed 3) = (mkParsed 3, none) :=
  ⟨(c4_resolve_clears_and_warns c4Parsed).1 (by decide),
   (c4_resolve_clears_and_warns (mkParsed 3)).2 rfl⟩

/-- C7 counterexample: passing the in-range ratio 0.0 to the Hybrid
constructor does not yield the clamped value 0; the Python `or` treats 0.0 as
falsy and substitutes the configured default (hybrid_strategy.py line 31). -/
theorem c7_zero_ratio_counterexample :
    hybridInitRagRatio (some 0) = hybridSettingsRagRatio ∧
    max 0 (min 1 (0 : Rat)) = 0 ∧
    hybridInitRagRatio (some 0) ≠ max 0 (min 1 (0 : Rat)) := by
  refine ⟨?_, by norm_num, ?_⟩
  · unfold hybridInitRagRatio hybridSettingsRagRatio
    norm_num
  · unfold hybridInitRagRatio hybridSettingsRagRatio
    norm_num

/-- C7 amended: every nonzero supplied ratio is used and clamped to [0,1];
a supplied 0.0 (or no ratio at all) is replaced by the configured default
before clamping. -/
theorem c7_ratio_clamped (x : Rat) (hx : x ≠ 0) :
    hybridInitRagRatio (some x) = max 0 (min 1 x) ∧
    hybridInitRagRatio none = max 0 (min 1 hybridSettingsRagRatio) := by
  constructor
  · unfold hybridInitRagRatio
    dsimp only
    rw [if_neg hx]
  · rfl

/-- Witness for C7 amended at ratio 1/2. -/
theorem c7_ratio_clamped_witness :
    hybridInitRagRatio (some (1 / 2)) = max 0 (min 1 ((1 : Rat) / 2)) ∧
    hybridInitRagRatio none = max 0 (min 1 hybridSettingsRagRatio) :=
  c7_ratio_clamped (1 / 2) (by norm_num)

/-- Collecting loop over one day's meals: appending each parsed prep time to
the accumulator is the accumulator followed by a `filterMap`. -/
theorem foldl_prep_inner (f : Meal → Option Nat) :
    ∀ (ms : List Meal) (acc : List Nat),
      ms.foldl (fun acc m =>
        match f m with
        | some n => acc ++ [n]
        | none => acc) acc = acc ++ ms.filterMap f := by
  intro ms
  induction ms with
  | nil => intro acc; simp
  | cons m ms ih =>
      intro acc
      cases hm : f m with
      | some n =>
          simp only [List.foldl_cons, hm, ih, List.filterMap_cons, hm,
            List.append_assoc, List.singleton_append]
      | none =>
          simp only [List.foldl_cons, hm, ih, List.filterMap_cons, hm]

/-- Same for the day loop of `_calculate_summary`. -/
theorem foldl_prep_outer (f : Meal → Option Nat) :
    ∀ (plan : List DayPlan) (acc : List Nat),
      plan.foldl (fun acc d => d.meals.foldl (fun acc m =>
        match f m with
        | some n => acc ++ [n]
        | none => acc) acc) acc = acc ++ (allMeals plan).filterMap f := by
  intro plan
  induction plan with
  | nil => intro acc; simp [allMeals]
  | cons d plan ih =>
      intro acc
      rw [List.foldl_cons, ih, foldl_prep_inner]
      simp [allMeals, List.filterMap_append, List.append_assoc]

/-- C10 amended: the summary's average prep time averages the first integers
of exactly those prep-time texts containing a digit (a missing key defaults
to the text "30 mins" and so contributes 30); texts with no digit are
skipped, and when nothing contributes the result is the hardcoded
"25 mins" (meal_generator.py lines 243-254). -/
theorem c10_avg_prep_amended (plan : List DayPlan) (p : Parsed) :
    (calculateSummary plan p).avg_prep_time = amendedAvgPrepTime plan := by
  unfold calculateSummary amendedAvgPrepTime
  dsimp only
  rw [foldl_prep_outer (fun m => firstNumberIn (m.preparation_time.getD "30 mins")) plan []]
  rw [List.nil_append]
  by_cases h : (allMeals plan).filterMap
      (fun m => firstNumberIn (m.preparation_time.getD "30 mins")) = []
  · rw [if_neg (by simpa using h), if_pos h]
  · rw [if_pos (by simpa using h), if_neg h]

/-- C10 counterexample: for a plan whose single meal has the digitless
prep-time text "fast", the code yields "25 mins" while the claimed rule
(unparseable entries count as 30) yields "30 mins". -/
theorem c10_unparseable_counterexample :
    (calculateSummary c10Plan (mkParsed 3)).avg_prep_time = "25 mins" ∧
    specAvgPrepTime c10Plan = "30 mins" ∧
    (calculateSummary c10Plan (mkParsed 3)).avg_prep_time ≠
      specAvgPrepTime c10Plan := by
  exact ⟨by decide, by decide, by decide⟩

/-- C2: for every query, every recipe-service state and every outcome of the
external calls, `generate` returns the static 3-day fallback plan with the
fixed fallback warning — never a strategy-generated plan — because the success
path dereferences the non-existent `strategy` attribute of `RecipeService`
(whose constructor also accepts no `strategy_mode` keyword), so the generation
branch always raises and the single exception handler is always taken. -/
theorem c2_generate_always_fallback (svc : RecipeService) (q : String)
    (env : GenEnv) :
    generate svc q env =
      generateFallbackMealPlan (some q)
        "RecipeService object has no attribute strategy" env ∧
    "strategy" ∉ RecipeService.instanceAttrs ∧
    "strategy_mode" ∉ RecipeService.initKeywordParams ∧
    (generate svc q env).warning = some fallbackWarning :=
  ⟨rfl, by decide, by decide, rfl⟩

/-- C1: whenever the try-block body of `generate` raises (which in particular
happens for every input, including when both external collaborators always
fail), the one catch-all handler replaces the exception by the static
fallback: a 3-day plan with a breakfast/lunch/dinner triple per day taken
from the fixed `default_recipes` table, carrying the fixed non-null warning.
`generate` is a total function of its call environment, so it never raises
itself, and the handler is the single catch site (meal_generator.py lines
224-232). -/
theorem c1_generate_catches_fallback (svc : RecipeService) (q : String)
    (env : GenEnv) (e : PyErr)
    (h : generateBody svc q env = Except.error e) :
    (∃ msg, generate svc q env = generateFallbackMealPlan (some q) msg env) ∧
    (generate svc q env).meal_plan =
      [1, 2, 3].map (fun day =>
        { day := day
          date := env.startDate + (day - 1)
          meals := ["breakfast", "lunch", "dinner"].map (fun mt =>
            { fallbackDefaultRecipe mt with meal_type := some mt }) }) ∧
    (generate svc q env).duration_days = 3 ∧
    (generate svc q env).meal_plan.map (fun d => d.meals.map Meal.meal_type) =
      [[some "breakfast", some "lunch", some "dinner"],
       [some "breakfast", some "lunch", some "dinner"],
       [some "breakfast", some "lunch", some "dinner"]] ∧
    (generate svc q env).warning = some fallbackWarning :=
  ⟨⟨"RecipeService object has no attribute strategy", rfl⟩, rfl, rfl, rfl, rfl⟩

/-- Witness for C1: the body raises on a concrete query and the fallback
properties hold there. -/
theorem c1_generate_catches_fallback_witness :
    (∃ msg, generate svc0 "vegan meal plan" env0 =
      generateFallbackMealPlan (some "vegan meal plan") msg env0) ∧
    (generate svc0 "vegan meal plan" env0).meal_plan =
      [1, 2, 3].map (fun day =>
        { day := day
          date := env0.startDate + (day - 1)
          meals := ["breakfast", "lunch", "dinner"].map (fun mt =>
            { fallbackDefaultRecipe mt with meal_type := some mt }) }) ∧
    (generate svc0 "vegan meal plan" env0).duration_days = 3 ∧
    (generate svc0 "vegan meal plan" env0).meal_plan.map
      (fun d => d.meals.map Meal.meal_type) =
      [[some "breakfast", some "lunch", some "dinner"],
       [some "breakfast", some "lunch", some "dinner"],
       [some "breakfast", some "lunch", some "dinner"]] ∧
    (generate svc0 "vegan meal plan" env0).warning = some fallbackWarning :=
  c1_generate_catches_fallback svc0 "vegan meal plan" env0
    (PyErr.attributeError "RecipeService object has no attribute strategy") rfl

/-- C3 (code bug): the parsed-and-validated request "10-day meal plan" has
duration 7 after clamping, but `generate` returns the static 3-day fallback
plan for it (and for every input), because the strategy attribute access
always raises; the repo's own tests
(tests/test_meal_generator.py::test_duration_capping,
tests/test_strategies.py) assert the plan length must equal the clamped
requested duration. -/
theorem c3_requested_duration_ignored :
    (QueryParser.parse "10-day meal plan" (some c3Llm)).duration_days = 7 ∧
    (generate svc0 "10-day meal plan" c3Env).duration_days = 3 ∧
    (generate svc0 "10-day meal plan" c3Env).meal_plan.length = 3 ∧
    ((7 : Int) = 3 → False) :=
  ⟨by decide, rfl, rfl, by decide⟩

/-- C8 counterexample: one successful `generate_day_meals` call on a tracker
already holding 50 names pushes it to 53 entries — the ~50 cap is not
enforced by that operation (llm_only.py lines 177-181 add names with no
trim). -/
theorem c8_day_meals_exceed_cap :
    c8Used.length = 50 ∧
    ((llmGenerateDayMeals
      (some [c8Recipe "extra one", c8Recipe "extra two", c8Recipe "extra three"])
      [] ["breakfast", "lunch", "dinner"] [] c8Used).2).length = 53 ∧
    ¬ ((llmGenerateDayMeals
      (some [c8Recipe "extra one", c8Recipe "extra two", c8Recipe "extra three"])
      [] ["breakfast", "lunch", "dinner"] [] c8Used).2).length ≤ 50 :=
  ⟨by decide, by decide, by decide⟩

/-- C8 amended: only `generate_recipe` enforces the 50-name cap — after any
call it either leaves the tracker untouched or leaves it with at most 50
entries (trimming to the 50 most recent in this insertion-ordered model;
CPython drops an unspecified subset of the same size) — and `reset()` always
empties the tracker; `generate_day_meals` inserts names with no cap. -/
theorem c8_recipe_cap_and_reset (llm : Option RecipeJson) (mt : String)
    (dr used : List String) :
    (((llmGenerateRecipe llm mt dr used).2).length ≤ 50 ∨
      (llmGenerateRecipe llm mt dr used).2 = used) ∧
    llmOnlyReset used = [] := by
  constructor
  · unfold llmGenerateRecipe
    cases llm with
    | none => exact Or.inr rfl
    | some r =>
        dsimp only
        by_cases hname :
            pyLower (((llmValidateRecipe r mt).recipe_name).getD "") ≠ ""
        · rw [if_pos hname]
          by_cases hlen :
              (pySetAdd used
                (pyLower (((llmValidateRecipe r mt).recipe_name).getD ""))).length > 50
          · rw [if_pos hlen]
            refine Or.inl ?_
            dsimp only
            rw [List.length_drop]
            omega
          · rw [if_neg hlen]
            refine Or.inl ?_
            dsimp only
            omega
        · rw [if_neg hname]
          exact Or.inr rfl
  · rfl

/-- C9 counterexample: re-running `validate` on its own corrected output
moves the budget tag of `special_requirements` to the end of the list
(`_validate_budget` filters it out and re-appends it), so validation is not
idempotent on the order of `special_requirements`. -/
theorem c9_revalidation_reorders :
    ((QueryValidator.validate c9Query (mkParsed 3)).1).special_requirements =
      ["budget-friendly", "quick-meals"] ∧
    ((QueryValidator.validate c9Query
        ((QueryValidator.validate c9Query (mkParsed 3)).1)).1).special_requirements =
      ["quick-meals", "budget-friendly"] ∧
    (QueryValidator.validate c9Query
        ((QueryValidator.validate c9Query (mkParsed 3)).1)).1 ≠
      (QueryValidator.validate c9Query (mkParsed 3)).1 :=
  ⟨by decide, by decide, by decide⟩

/-- Effect of one resolution step on a table contradiction string: the rule
table always fires, the winner is kept and the loser (never "vegan") is
filtered out of both lists; for the vegan/pescatarian pair in either order
the loser is "pescatarian" and the winner "vegan". -/
theorem resolveStep_table_cases (st : ResolveState) (c : String)
    (hc : c ∈ tableStrings) :
    ∃ keep remove : String, remove ≠ "vegan" ∧
      resolveStep st c =
        { dietary_restrictions :=
            if remove ∈ st.dietary_restrictions.map pyLower then
              st.dietary_restrictions.filter (fun r => pyLower r ≠ remove)
            else st.dietary_restrictions
          preferences :=
            if remove ∈ st.preferences.map pyLower then
              st.preferences.filter (fun r => pyLower r ≠ remove)
            else st.preferences
          removed := st.removed ++ [remove]
          kept := st.kept ++ [keep] } ∧
      ((c = "vegan and pescatarian" ∨ c = "pescatarian and vegan") →
        remove = "pescatarian" ∧ keep = "vegan") := by
  simp only [tableStrings, List.mem_cons, List.not_mem_nil, or_false] at hc
  rcases hc with rfl | rfl | rfl | rfl | rfl | rfl | rfl | rfl
  · refine ⟨"vegan", "pescatarian", by decide, ?_, fun _ => ⟨rfl, rfl⟩⟩
    unfold resolveStep
    rw [show (pySplitOn (pyLower "vegan and pescatarian") " and ").map pyStrip =
      ["vegan", "pescatarian"] from by decide]
    dsimp only
    rw [show findResolutionRule "vegan" "pescatarian" = some ("vegan", "pescatarian")
      from by decide]
    dsimp only
    rw [if_pos (show ("pescatarian" : String) ≠ "" from by decide)]
  · refine ⟨"vegan", "pescatarian", by decide, ?_, fun _ => ⟨rfl, rfl⟩⟩
    unfold resolveStep
    rw [show (pySplitOn (pyLower "pescatarian and vegan") " and ").map pyStrip =
      ["pescatarian", "vegan"] from by decide]
    dsimp only
    rw [show findResolutionRule "pescatarian" "vegan" = some ("vegan", "pescatarian")
      from by decide]
    dsimp only
    rw [if_pos (show ("pescatarian" : String) ≠ "" from by decide)]
  · refine ⟨"vegan", "vegetarian", by decide, ?_, fun h => absurd h (by decide)⟩
    unfold resolveStep
    rw [show (pySplitOn (pyLower "vegan and vegetarian") " and ").map pyStrip =
      ["vegan", "vegetarian"] from by decide]
    dsimp only
    rw [show findResolutionRule "vegan" "vegetarian" = some ("vegan", "vegetarian")
      from by decide]
    dsimp only
    rw [if_pos (show ("vegetarian" : String) ≠ "" from by decide)]
  · refine ⟨"vegan", "vegetarian", by decide, ?_, fun h => absurd h (by decide)⟩
    unfold resolveStep
    rw [show (pySplitOn (pyLower "vegetarian and vegan") " and ").map pyStrip =
      ["vegetarian", "vegan"] from by decide]
    dsimp only
    rw [show findResolutionRule "vegetarian" "vegan" = some ("vegan", "vegetarian")
      from by decide]
    dsimp only
    rw [if_pos (show ("vegetarian" : String) ≠ "" from by decide)]
  · refine ⟨"keto", "high-carb", by decide, ?_, fun h => absurd h (by decide)⟩
    unfold resolveStep
    rw [show (pySplitOn (pyLower "keto and high-carb") " and ").map pyStrip =
      ["keto", "high-carb"] from by decide]
    dsimp only
    rw [show findResolutionRule "keto" "high-carb" = some ("keto", "high-carb")
      from by decide]
    dsimp only
    rw [if_pos (show ("high-carb" : String) ≠ "" from by decide)]
  · refine ⟨"keto", "high-carb", by decide, ?_, fun h => absurd h (by decide)⟩
    unfold resolveStep
    rw [show (pySplitOn (pyLower "high-carb and keto") " and ").map pyStrip =
      ["high-carb", "keto"] from by decide]
    dsimp only
    rw [show findResolutionRule "high-carb" "keto" = some ("keto", "high-carb")
      from by decide]
    dsimp only
    rw [if_pos (show ("high-carb" : String) ≠ "" from by decide)]
  · refine ⟨"low-carb", "high-carb", by decide, ?_, fun h => absurd h (by decide)⟩
    unfold resolveStep
    rw [show (pySplitOn (pyLower "low-carb and high-carb") " and ").map pyStrip =
      ["low-carb", "high-carb"] from by decide]
    dsimp only
    rw [show findResolutionRule "low-carb" "high-carb" = some ("low-carb", "high-carb")
      from by decide]
    dsimp only
    rw [if_pos (show ("high-carb" : String) ≠ "" from by decide)]
  · refine ⟨"low-carb", "high-carb", by decide, ?_, fun h => absurd h (by decide)⟩
    unfold resolveStep
    rw [show (pySplitOn (pyLower "high-carb and low-carb") " and ").map pyStrip =
      ["high-carb", "low-carb"] from by decide]
    dsimp only
    rw [show findResolutionRule "high-carb" "low-carb" = some ("low-carb", "high-carb")
      from by decide]
    dsimp only
    rw [if_pos (show ("high-carb" : String) ≠ "" from by decide)]

/-- One resolution step can only remove dietary restrictions. -/
theorem resolveStep_dr_subset (st : ResolveState) (c : String) :
    ∀ x ∈ (resolveStep st c).dietary_restrictions,
      x ∈ st.dietary_restrictions := by
  intro x hx
  simp only [resolveStep] at hx
  repeat' split at hx
  all_goals simp_all [List.mem_filter]

/-- One resolution step only appends to `removed_items`. -/
theorem resolveStep_removed_mono (st : ResolveState) (c : String) :
    ∀ x ∈ st.removed, x ∈ (resolveStep st c).removed := by
  intro x hx
  simp only [resolveStep]
  repeat' split
  all_goals simp_all

/-- One resolution step only appends to `kept_items`. -/
theorem resolveStep_kept_mono (st : ResolveState) (c : String) :
    ∀ x ∈ st.kept, x ∈ (resolveStep st c).kept := by
  intro x hx
  simp only [resolveStep]
  repeat' split
  all_goals simp_all

/-- The resolution fold can only remove dietary restrictions. -/
theorem foldl_resolve_dr_subset :
    ∀ (cs : List String) (st : ResolveState),
      ∀ x ∈ (cs.foldl resolveStep st).dietary_restrictions,
        x ∈ st.dietary_restrictions := by
  intro cs
  induction cs with
  | nil => intro st x hx; exact hx
  | cons c cs ih =>
      intro st x hx
      exact resolveStep_dr_subset st c x (ih (resolveStep st c) x hx)

/-- `removed_items` grows monotonically along the resolution fold. -/
theorem foldl_resolve_removed_mono :
    ∀ (cs : List String) (st : ResolveState),
      ∀ x ∈ st.removed, x ∈ (cs.foldl resolveStep st).removed := by
  intro cs
  induction cs with
  | nil => intro st x hx; exact hx
  | cons c cs ih =>
      intro st x hx
      exact ih (resolveStep st c) x (resolveStep_removed_mono st c x hx)

/-- `kept_items` grows monotonically along the resolution fold. -/
theorem foldl_resolve_kept_mono :
    ∀ (cs : List String) (st : ResolveState),
      ∀ x ∈ st.kept, x ∈ (cs.foldl resolveStep st).kept := by
  intro cs
  induction cs with
  | nil => intro st x hx; exact hx
  | cons c cs ih =>
      intro st x hx
      exact ih (resolveStep st c) x (resolveStep_kept_mono st c x hx)

/-- Resolving table contradictions never removes the exact string "vegan":
it is the winner of every rule it occurs in. -/
theorem foldl_resolve_keeps_vegan :
    ∀ (cs : List String), (∀ c ∈ cs, c ∈ tableStrings) →
      ∀ (st : ResolveState), "vegan" ∈ st.dietary_restrictions →
        "vegan" ∈ (cs.foldl resolveStep st).dietary_restrictions := by
  intro cs
  induction cs with
  | nil => intro _ st h; exact h
  | cons c cs ih =>
      intro hcs st h
      refine ih (fun d hd => hcs d (List.mem_cons_of_mem _ hd))
        (resolveStep st c) ?_
      obtain ⟨keep, remove, hrv, heq, -⟩ :=
        resolveStep_table_cases st c (hcs c (List.mem_cons_self _ _))
      rw [heq]
      dsimp only
      split
      · refine List.mem_filter.mpr ⟨h, ?_⟩
        have : pyLower "vegan" = "vegan" := by decide
        simp [this, hrv]
        intro hfalse
        exact hrv hfalse.symm
      · exact h

/-- After resolving a contradiction list of table strings containing the
vegan/pescatarian pair (in either order), no dietary restriction lowercases
to "pescatarian". -/
theorem foldl_resolve_pesc_free :
    ∀ (cs : List String), (∀ c ∈ cs, c ∈ tableStrings) →
      ("vegan and pescatarian" ∈ cs ∨ "pescatarian and vegan" ∈ cs) →
      ∀ (st : ResolveState),
        ∀ x ∈ (cs.foldl resolveStep st).dietary_restrictions,
          pyLower x ≠ "pescatarian" := by
  intro cs
  induction cs with
  | nil =>
      intro _ hvp
      rcases hvp with h | h <;> exact absurd h (List.not_mem_nil _)
  | cons c cs ih =>
      intro hcs hvp st x hx
      by_cases hc : c = "vegan and pescatarian" ∨ c = "pescatarian and vegan"
      · have hx' := foldl_resolve_dr_subset cs (resolveStep st c) x hx
        obtain ⟨keep, remove, hrv, heq, hspec⟩ :=
          resolveStep_table_cases st c (hcs c (List.mem_cons_self _ _))
        obtain ⟨hrm, -⟩ := hspec hc
        subst hrm
        rw [heq] at hx'
        dsimp only at hx'
        split at hx'
        · have := (List.mem_filter.mp hx').2
          simpa using this
        · rename_i hnotin
          intro hlx
          exact hnotin (List.mem_map.mpr ⟨x, hx', hlx⟩)
      · have hvp' : "vegan and pescatarian" ∈ cs ∨
            "pescatarian and vegan" ∈ cs := by
          rcases hvp with h | h
          · rcases List.mem_cons.mp h with rfl | h
            · exact absurd (Or.inl rfl) hc
            · exact Or.inl h
          · rcases List.mem_cons.mp h with rfl | h
            · exact absurd (Or.inr rfl) hc
            · exact Or.inr h
        exact ih (fun d hd => hcs d (List.mem_cons_of_mem _ hd)) hvp'
          (resolveStep st c) x hx

/-- Resolving a table contradiction list containing the vegan/pescatarian
pair records "pescatarian" among the removed items and "vegan" among the
kept items. -/
theorem foldl_resolve_removed_kept :
    ∀ (cs : List String), (∀ c ∈ cs, c ∈ tableStrings) →
      ("vegan and pescatarian" ∈ cs ∨ "pescatarian and vegan" ∈ cs) →
      ∀ (st : ResolveState),
        "pescatarian" ∈ (cs.foldl resolveStep st).removed ∧
        "vegan" ∈ (cs.foldl resolveStep st).kept := by
  intro cs
  induction cs with
  | nil =>
      intro _ hvp
      rcases hvp with h | h <;> exact absurd h (List.not_mem_nil _)
  | cons c cs ih =>
      intro hcs hvp st
      by_cases hc : c = "vegan and pescatarian" ∨ c = "pescatarian and vegan"
      · obtain ⟨keep, remove, hrv, heq, hspec⟩ :=
          resolveStep_table_cases st c (hcs c (List.mem_cons_self _ _))
        obtain ⟨hrm, hkp⟩ := hspec hc
        subst hrm; subst hkp
        constructor
        · refine foldl_resolve_removed_mono cs (resolveStep st c)
            "pescatarian" ?_
          rw [heq]
          exact List.mem_append.mpr (Or.inr (List.mem_singleton.mpr rfl))
        · refine foldl_resolve_kept_mono cs (resolveStep st c) "vegan" ?_
          rw [heq]
          exact List.mem_append.mpr (Or.inr (List.mem_singleton.mpr rfl))
      · have hvp' : "vegan and pescatarian" ∈ cs ∨
            "pescatarian and vegan" ∈ cs := by
          rcases hvp with h | h
          · rcases List.mem_cons.mp h with rfl | h
            · exact absurd (Or.inl rfl) hc
            · exact Or.inl h
          · rcases List.mem_cons.mp h with rfl | h
            · exact absurd (Or.inr rfl) hc
            · exact Or.inr h
        exact ih (fun d hd => hcs d (List.mem_cons_of_mem _ hd)) hvp'
          (resolveStep st c)

/-- Every string produced by the per-restriction detection loop is one of the
eight table strings. -/
theorem contradictionsFor_mem_table (r : String) (dr pf : List String) :
    ∀ x ∈ contradictionsFor r dr pf, x ∈ tableStrings := by
  unfold contradictionsFor
  suffices h : ∀ (l : List (String × String)),
      (∀ kp ∈ l, kp ∈ knownContradictions) →
      ∀ (acc : List String), (∀ x ∈ acc, x ∈ tableStrings) →
      ∀ x ∈ l.foldl
        (fun acc kp =>
          if r = kp.1 ∨ r = kp.2 then
            let other := if kp.1 = r then kp.2 else kp.1
            if other ∈ dr ∨ other ∈ pf then
              acc ++ [r ++ " and " ++ other]
            else acc
          else acc) acc, x ∈ tableStrings by
    exact h knownContradictions (fun kp hk => hk) []
      (fun x hx => absurd hx (List.not_mem_nil x))
  intro l
  induction l with
  | nil => intro _ acc hacc x hx; exact hacc x hx
  | cons kp l ih =>
      intro hl acc hacc x hx
      rw [List.foldl_cons] at hx
      refine ih (fun k hk => hl k (List.mem_cons_of_mem _ hk)) _ ?_ x hx
      intro y hy
      by_cases hr : r = kp.1 ∨ r = kp.2
      · rw [if_pos hr] at hy
        dsimp only at hy
        by_cases ho : (if kp.1 = r then kp.2 else kp.1) ∈ dr ∨
            (if kp.1 = r then kp.2 else kp.1) ∈ pf
        · rw [if_pos ho] at hy
          rcases List.mem_append.mp hy with hy | hy
          · exact hacc y hy
          · rw [List.mem_singleton.mp hy]
            have hkp := hl kp (List.mem_cons_self _ _)
            simp only [knownContradictions, List.mem_cons,
              List.not_mem_nil, or_false] at hkp
            rcases hkp with rfl | rfl | rfl | rfl <;>
              rcases hr with rfl | rfl <;> decide
        · rw [if_neg ho] at hy
          exact hacc y hy
      · rw [if_neg hr] at hy
        exact hacc y hy

/-- Everything detection produces is a table string. -/
theorem detect_mem_table (dr pf : List String) :
    ∀ x ∈ detectContradictions dr pf, x ∈ tableStrings := by
  intro x hx
  unfold detectContradictions at hx
  rcases foldl_collect_sub (pyDedup dr) [] x hx with h | ⟨r, _, hr⟩
  · exact absurd h (List.not_mem_nil x)
  · exact contradictionsFor_mem_table r dr pf x hr

/-- With "vegan" and "pescatarian" both present among the restrictions,
detection produces the "vegan and pescatarian" contradiction string. -/
theorem detect_contains_vp (dr pf : List String)
    (h1 : "vegan" ∈ dr) (h2 : "pescatarian" ∈ dr) :
    "vegan and pescatarian" ∈ detectContradictions dr pf := by
  unfold detectContradictions
  refine foldl_collect_mem (pyDedup dr) [] (mem_pyDedup.mpr h1)
    "vegan and pescatarian" ?_
  unfold contradictionsFor knownContradictions
  simp only [List.foldl_cons, List.foldl_nil]
  have hp : ("pescatarian" ∈ dr ∨ "pescatarian" ∈ pf) := Or.inl h2
  by_cases hv : ("vegetarian" ∈ dr ∨ "vegetarian" ∈ pf) <;>
    simp +decide [hv, hp]

/-- Value of the contradiction field after `_validate_contradictions`
(query_validator.py lines 162-189). -/
theorem validateContradictions_contr (q : String) (p : Parsed) :
    ((validateContradictions q p).1).contradictions =
      if p.contradictions ++
          detectContradictions p.dietary_restrictions p.preferences = []
      then p.contradictions
      else pyDedup (p.contradictions ++
          detectContradictions p.dietary_restrictions p.preferences) := by
  unfold validateContradictions
  dsimp only
  by_cases h : p.contradictions ++
      detectContradictions p.dietary_restrictions p.preferences = []
  · rw [if_neg (fun hne => hne h), if_pos h]
  · rw [if_pos h, if_neg h]

/-- The full pipeline leaves the dietary restrictions unchanged. -/
theorem validate_dr_value (q : String) (p : Parsed) :
    ((QueryValidator.validate q p).1).dietary_restrictions =
      p.dietary_restrictions := by
  rw [validate_pipeline]
  simp only [vpt_dietary_restrictions, vbud_dietary_restrictions,
    vcontr_dietary_restrictions, vdiet_id, vdur_dietary_restrictions,
    mc_dietary_restrictions]

/-- The full pipeline leaves the preferences unchanged. -/
theorem validate_pref_value (q : String) (p : Parsed) :
    ((QueryValidator.validate q p).1).preferences = p.preferences := by
  rw [validate_pipeline]
  simp only [vpt_preferences, vbud_preferences, vcontr_preferences,
    vdiet_id, vdur_preferences, mc_preferences]

/-- Contradictions after the full pipeline: the input contradictions plus the
detected ones, deduplicated (or unchanged when both are empty). -/
theorem validate_contr_value (q : String) (p : Parsed) :
    ((QueryValidator.validate q p).1).contradictions =
      if p.contradictions ++
          detectContradictions p.dietary_restrictions p.preferences = []
      then p.contradictions
      else pyDedup (p.contradictions ++
        detectContradictions p.dietary_restrictions p.preferences) := by
  rw [validate_pipeline]
  simp only [vpt_contradictions, vbud_contradictions,
    validateContradictions_contr, vdiet_id, vdur_contradictions,
    mc_contradictions, vdur_dietary_restrictions, mc_dietary_restrictions,
    vdur_preferences, mc_preferences]

/-- C5: for any query and any parsed dictionary whose dietary restrictions
contain both "vegan" and "pescatarian" with no pre-existing contradictions
(the state `_parse_with_regex` produces for "Pescatarian vegan meal plan"),
validation records a contradiction string referencing both terms, and after
resolution the dietary restrictions contain "vegan" but not "pescatarian"
(the rule table keeps the designated winner) and the warning mentions both
terms. -/
theorem c5_pescatarian_vegan_resolution (q : String) (p : Parsed)
    (h1 : "vegan" ∈ p.dietary_restrictions)
    (h2 : "pescatarian" ∈ p.dietary_restrictions)
    (h3 : p.contradictions = []) :
    (∃ c ∈ ((QueryValidator.validate q p).1).contradictions,
      containsSubstr c "pescatarian" = true ∧
      containsSubstr c "vegan" = true) ∧
    "vegan" ∈ ((resolveContradictions
      (QueryValidator.validate q p).1).1).dietary_restrictions ∧
    "pescatarian" ∉ ((resolveContradictions
      (QueryValidator.validate q p).1).1).dietary_restrictions ∧
    (∃ w, (resolveContradictions (QueryValidator.validate q p).1).2 = some w ∧
      containsSubstr w "pescatarian" = true ∧
      containsSubstr w "vegan" = true) := by
  have hdr : ((QueryValidator.validate q p).1).dietary_restrictions =
      p.dietary_restrictions := validate_dr_value q p
  have hvp : "vegan and pescatarian" ∈
      detectContradictions p.dietary_restrictions p.preferences :=
    detect_contains_vp _ _ h1 h2
  have hDne : p.contradictions ++
      detectContradictions p.dietary_restrictions p.preferences ≠ [] := by
    rw [h3, List.nil_append]
    exact List.ne_nil_of_mem hvp
  have hcontr : ((QueryValidator.validate q p).1).contradictions =
      pyDedup (detectContradictions p.dietary_restrictions p.preferences) := by
    rw [validate_contr_value q p, if_neg hDne, h3, List.nil_append]
  have hvp_in : "vegan and pescatarian" ∈
      ((QueryValidator.validate q p).1).contradictions := by
    rw [hcontr]
    exact mem_pyDedup.mpr hvp
  have hcontr_ne : ((QueryValidator.validate q p).1).contradictions ≠ [] :=
    List.ne_nil_of_mem hvp_in
  have htable : ∀ c ∈ ((QueryValidator.validate q p).1).contradictions,
      c ∈ tableStrings := by
    intro c hc
    rw [hcontr] at hc
    exact detect_mem_table _ _ c (mem_pyDedup.mp hc)
  refine ⟨⟨"vegan and pescatarian", hvp_in, by decide, by decide⟩, ?_, ?_, ?_⟩
  · unfold resolveContradictions
    rw [if_neg hcontr_ne]
    dsimp only
    refine foldl_resolve_keeps_vegan _ htable _ ?_
    show "vegan" ∈ ((QueryValidator.validate q p).1).dietary_restrictions
    rw [hdr]
    exact h1
  · unfold resolveContradictions
    rw [if_neg hcontr_ne]
    dsimp only
    intro hmem
    exact foldl_resolve_pesc_free _ htable (Or.inl hvp_in) _ "pescatarian" hmem
      (by decide)
  · unfold resolveContradictions
    rw [if_neg hcontr_ne]
    dsimp only
    obtain ⟨hrm, hkp⟩ :=
      foldl_resolve_removed_kept _ htable (Or.inl hvp_in)
        { dietary_restrictions :=
            ((QueryValidator.validate q p).1).dietary_restrictions
          preferences := ((QueryValidator.validate q p).1).preferences
          removed := []
          kept := [] }
    have hrne := List.ne_nil_of_mem hrm
    have hkne := List.ne_nil_of_mem hkp
    refine ⟨_, rfl, ?_, ?_⟩
    · rw [if_pos ⟨hrne, hkne⟩]
      have hsub : containsSubstr
          (joinComma (pyDedup (((QueryValidator.validate q p).1).contradictions.foldl
            resolveStep
            { dietary_restrictions :=
                ((QueryValidator.validate q p).1).dietary_restrictions
              preferences := ((QueryValidator.validate q p).1).preferences
              removed := []
              kept := [] }).removed)) "pescatarian" = true :=
        containsSubstr_joinComma (mem_pyDedup.mpr hrm)
      exact containsSubstr_append_right (containsSubstr_append_right
        (containsSubstr_append_right (containsSubstr_append_right
          (containsSubstr_append_right (containsSubstr_append_left hsub)))))
    · rw [if_pos ⟨hrne, hkne⟩]
      have hsub : containsSubstr
          (joinComma (pyDedup (((QueryValidator.validate q p).1).contradictions.foldl
            resolveStep
            { dietary_restrictions :=
                ((QueryValidator.validate q p).1).dietary_restrictions
              preferences := ((QueryValidator.validate q p).1).preferences
              removed := []
              kept := [] }).kept)) "vegan" = true :=
        containsSubstr_joinComma (mem_pyDedup.mpr hkp)
      exact containsSubstr_append_right (containsSubstr_append_left hsub)

/-- Witness for C5: the concrete scenario input "Pescatarian vegan meal
plan", parsed by the deterministic regex fallback (whose output is exactly
`QueryParser.parse` of that input when the external parse call fails). -/
theorem c5_pescatarian_vegan_resolution_witness :
    (∃ c ∈ ((QueryValidator.validate "Pescatarian vegan meal plan"
        (parseWithRegex "Pescatarian vegan meal plan")).1).contradictions,
      containsSubstr c "pescatarian" = true ∧
      containsSubstr c "vegan" = true) ∧
    "vegan" ∈ ((resolveContradictions
      (QueryValidator.validate "Pescatarian vegan meal plan"
        (parseWithRegex "Pescatarian vegan meal plan")).1).1).dietary_restrictions ∧
    "pescatarian" ∉ ((resolveContradictions
      (QueryValidator.validate "Pescatarian vegan meal plan"
        (parseWithRegex "Pescatarian vegan meal plan")).1).1).dietary_restrictions ∧
    (∃ w, (resolveContradictions
      (QueryValidator.validate "Pescatarian vegan meal plan"
        (parseWithRegex "Pescatarian vegan meal plan")).1).2 = some w ∧
      containsSubstr w "pescatarian" = true ∧
      containsSubstr w "vegan" = true) :=
  c5_pescatarian_vegan_resolution "Pescatarian vegan meal plan"
    (parseWithRegex "Pescatarian vegan meal plan")
    (by decide) (by decide) (by decide)

theorem validateBudget_special (q : String) (p : Parsed) :
    ((validateBudget q p).1).special_requirements =
      budgetRewrite (budgetLevelOf (pyLower q)) p.special_requirements := by
  unfold validateBudget budgetRewrite
  dsimp only
  cases budgetLevelOf (pyLower q) with
  | none => rfl
  | some lvl =>
      dsimp only
      by_cases h : "budget_level" ∈ p.special_requirements
      · rw [if_pos h, if_pos h]
      · rw [if_neg h, if_neg h]

theorem validatePrepTime_special (q : String) (p : Parsed) :
    ((validatePrepTime q p).1).special_requirements =
      prepRewrite (prepTimeMaxOf (pyLower q)) p.special_requirements := by
  unfold validatePrepTime prepRewrite
  dsimp only
  cases prepTimeMaxOf (pyLower q) with
  | none => rfl
  | some n =>
      dsimp only
      by_cases hn : n ≠ 0
      · rw [if_pos hn, if_pos hn]
      · rw [if_neg hn, if_neg hn]

theorem validatePrepTime_ptm (q : String) (p : Parsed) :
    ((validatePrepTime q p).1).prep_time_max =
      match prepTimeMaxOf (pyLower q) with
      | none => p.prep_time_max
      | some n => if n ≠ 0 then some (n : Int) else p.prep_time_max := by
  unfold validatePrepTime
  dsimp only
  cases prepTimeMaxOf (pyLower q) with
  | none => rfl
  | some n =>
      dsimp only
      by_cases hn : n ≠ 0
      · rw [if_pos hn, if_pos hn]
      · rw [if_neg hn, if_neg hn]

/-- `special_requirements` after the whole pipeline: the budget rewrite
followed by the prep-time rewrite. -/
theorem validate_special_value (q : String) (p : Parsed) :
    ((QueryValidator.validate q p).1).special_requirements =
      prepRewrite (prepTimeMaxOf (pyLower q))
        (budgetRewrite (budgetLevelOf (pyLower q)) p.special_requirements) := by
  rw [validate_pipeline, validatePrepTime_special, validateBudget_special]
  simp only [vcontr_special_requirements, vdiet_id, vdur_special_requirements,
    mc_special_requirements]

/-- `prep_time_max` after the whole pipeline. -/
theorem validate_ptm_value (q : String) (p : Parsed) :
    ((QueryValidator.validate q p).1).prep_time_max =
      match prepTimeMaxOf (pyLower q) with
      | none => p.prep_time_max
      | some n => if n ≠ 0 then some (n : Int) else p.prep_time_max := by
  rw [validate_pipeline, validatePrepTime_ptm]
  simp only [vbud_prep_time_max, vcontr_prep_time_max, vdiet_id,
    vdur_prep_time_max, mc_prep_time_max]

/-- `meals_per_day` after the pipeline is what `_validate_meal_count` sets. -/
theorem validate_mpd_value (q : String) (p : Parsed) :
    ((QueryValidator.validate q p).1).meals_per_day =
      ((validateMealCount q p).1).meals_per_day := by
  rw [validate_pipeline]
  simp only [vpt_meals_per_day, vbud_meals_per_day, vcontr_meals_per_day,
    vdiet_id, vdur_meals_per_day]

/-- `meal_types` after the pipeline is what `_validate_meal_count` sets. -/
theorem validate_mts_value (q : String) (p : Parsed) :
    ((QueryValidator.validate q p).1).meal_types =
      ((validateMealCount q p).1).meal_types := by
  rw [validate_pipeline]
  simp only [vpt_meal_types, vbud_meal_types, vcontr_meal_types,
    vdiet_id, vdur_meal_types]

theorem prepRewrite_superset (pt : Option Nat) (s : List String) :
    ∀ x ∈ s, x ∈ prepRewrite pt s := by
  intro x hx
  unfold prepRewrite
  cases pt with
  | none => exact hx
  | some n =>
      dsimp only
      by_cases hn : n ≠ 0
      · rw [if_pos hn]
        by_cases hc : ¬ "quick-meals" ∈ s ∧ n ≤ 30
        · rw [if_pos hc]
          exact List.mem_append.mpr (Or.inl hx)
        · rw [if_neg hc]
          exact hx
      · rw [if_neg hn]
        exact hx

theorem prepRewrite_no_add (pt : Option Nat) (s : List String)
    (h : "quick-meals" ∈ s) : prepRewrite pt s = s := by
  unfold prepRewrite
  cases pt with
  | none => rfl
  | some n =>
      dsimp only
      by_cases hn : n ≠ 0
      · rw [if_pos hn, if_neg (fun hc => hc.1 h)]
      · rw [if_neg hn]

theorem prepRewrite_shape (pt : Option Nat) (s : List String) :
    prepRewrite pt s = s ∨
      (prepRewrite pt s = s ++ ["quick-meals"] ∧ "quick-meals" ∉ s) := by
  unfold prepRewrite
  cases pt with
  | none => exact Or.inl rfl
  | some n =>
      dsimp only
      by_cases hn : n ≠ 0
      · rw [if_pos hn]
        by_cases hc : ¬ "quick-meals" ∈ s ∧ n ≤ 30
        · rw [if_pos hc]
          exact Or.inr ⟨rfl, hc.1⟩
        · rw [if_neg hc]
          exact Or.inl rfl
      · rw [if_neg hn]
        exact Or.inl rfl

theorem prepRewrite_idem (pt : Option Nat) (s : List String) :
    prepRewrite pt (prepRewrite pt s) = prepRewrite pt s := by
  rcases prepRewrite_shape pt s with h | ⟨h, -⟩
  · rw [h, h]
  · rw [h]
    exact prepRewrite_no_add pt _
      (List.mem_append.mpr (Or.inr (List.mem_singleton.mpr rfl)))

theorem budgetLevelOf_mem (ql lvl : String)
    (h : budgetLevelOf ql = some lvl) : lvl ∈ budgetWords := by
  unfold budgetLevelOf at h
  split_ifs at h <;>
    simp only [Option.some.injEq] at h <;>
    rw [← h] <;> decide

/-- A filtered-then-extended special-requirements list keeps the filter
stable: filtering the rewrite output again removes exactly the re-appended
level. -/
theorem filter_budget_stable (F : List String) (lvl : String)
    (hlvl : lvl ∈ budgetWords)
    (hF : F.filter (fun r => ¬ r ∈ budgetWords) = F) :
    (F ++ [lvl]).filter (fun r => ¬ r ∈ budgetWords) = F := by
  rw [List.filter_append, hF]
  have : [lvl].filter (fun r => ¬ r ∈ budgetWords) = [] := by
    simp [hlvl]
  rw [this, List.append_nil]

/-- The core C9 stability fact on plain lists: running the budget rewrite and
the prep rewrite a second time preserves membership in
`special_requirements` (the order can change, as the counterexample shows,
but the elements cannot). -/
theorem rewrite_membership_stable (bl : Option String) (pt : Option Nat)
    (hbl : ∀ lvl, bl = some lvl → lvl ∈ budgetWords) (s : List String) :
    ∀ x, (x ∈ prepRewrite pt (budgetRewrite bl
        (prepRewrite pt (budgetRewrite bl s))) ↔
      x ∈ prepRewrite pt (budgetRewrite bl s)) := by
  cases bl with
  | none =>
      intro x
      show x ∈ prepRewrite pt (prepRewrite pt s) ↔ x ∈ prepRewrite pt s
      rw [prepRewrite_idem]
  | some lvl =>
      have hlvl : lvl ∈ budgetWords := hbl lvl rfl
      have hlq : lvl ≠ "quick-meals" := by
        intro hf
        rw [hf] at hlvl
        exact absurd hlvl (by decide)
      have hlb : lvl ≠ "budget_level" := by
        intro hf
        rw [hf] at hlvl
        exact absurd hlvl (by decide)
      by_cases hb : "budget_level" ∈ s
      · have hbr : budgetRewrite (some lvl) s = s := by
          unfold budgetRewrite
          dsimp only
          rw [if_pos hb]
        rw [hbr]
        have hb1 : "budget_level" ∈ prepRewrite pt s :=
          prepRewrite_superset pt s _ hb
        have hbr2 : budgetRewrite (some lvl) (prepRewrite pt s) =
            prepRewrite pt s := by
          unfold budgetRewrite
          dsimp only
          rw [if_pos hb1]
        rw [hbr2, prepRewrite_idem]
        intro x
        rfl
      · have hbr : budgetRewrite (some lvl) s =
            (s.filter (fun r => ¬ r ∈ budgetWords)) ++ [lvl] := by
          unfold budgetRewrite
          dsimp only
          rw [if_neg hb]
        have hFfix : (s.filter (fun r => ¬ r ∈ budgetWords)).filter
            (fun r => ¬ r ∈ budgetWords) =
            s.filter (fun r => ¬ r ∈ budgetWords) := by
          rw [List.filter_filter]
          exact List.filter_congr (fun a _ => by
            cases hmem : decide (¬ a ∈ budgetWords) <;> simp [hmem])
        have hbl_notin : "budget_level" ∉
            (s.filter (fun r => ¬ r ∈ budgetWords)) ++ [lvl] := by
          intro hmem
          rcases List.mem_append.mp hmem with hmem | hmem
          · exact hb (List.mem_filter.mp hmem).1
          · exact hlb ((List.mem_singleton.mp hmem).symm ▸ rfl)
        rw [hbr]
        rcases prepRewrite_shape pt
            ((s.filter (fun r => ¬ r ∈ budgetWords)) ++ [lvl]) with hv1 | ⟨hv1, hnq⟩
        · rw [hv1]
          have hbr2 : budgetRewrite (some lvl)
              ((s.filter (fun r => ¬ r ∈ budgetWords)) ++ [lvl]) =
              (s.filter (fun r => ¬ r ∈ budgetWords)) ++ [lvl] := by
            unfold budgetRewrite
            dsimp only
            rw [if_neg hbl_notin,
              filter_budget_stable _ _ hlvl hFfix]
          rw [hbr2, hv1]
          intro x
          rfl
        · rw [hv1]
          have hbl_notin2 : "budget_level" ∉
              ((s.filter (fun r => ¬ r ∈ budgetWords)) ++ [lvl]) ++
                ["quick-meals"] := by
            intro hmem
            rcases List.mem_append.mp hmem with hmem | hmem
            · exact hbl_notin hmem
            · exact absurd (List.mem_singleton.mp hmem) (by decide)
          have hfilter2 :
              (((s.filter (fun r => ¬ r ∈ budgetWords)) ++ [lvl]) ++
                ["quick-meals"]).filter (fun r => ¬ r ∈ budgetWords) =
              (s.filter (fun r => ¬ r ∈ budgetWords)) ++ ["quick-meals"] := by
            rw [List.filter_append, filter_budget_stable _ _ hlvl hFfix]
            have : ["quick-meals"].filter (fun r => ¬ r ∈ budgetWords) =
                ["quick-meals"] := by decide
            rw [this]
          have hbr2 : budgetRewrite (some lvl)
              (((s.filter (fun r => ¬ r ∈ budgetWords)) ++ [lvl]) ++
                ["quick-meals"]) =
              ((s.filter (fun r => ¬ r ∈ budgetWords)) ++ ["quick-meals"]) ++
                [lvl] := by
            unfold budgetRewrite
            dsimp only
            rw [if_neg hbl_notin2, hfilter2]
          rw [hbr2]
          have hq2 : "quick-meals" ∈
              ((s.filter (fun r => ¬ r ∈ budgetWords)) ++ ["quick-meals"]) ++
                [lvl] := by
            refine List.mem_append.mpr (Or.inl ?_)
            exact List.mem_append.mpr (Or.inr (List.mem_singleton.mpr rfl))
          rw [prepRewrite_no_add pt _ hq2]
          intro x
          simp only [List.mem_append, List.mem_singleton]
          tauto

theorem mealTypesMentioned_nil {ql : String} (h : mealTypesMentioned ql = []) :
    containsSubstr ql "breakfast" = false ∧
    containsSubstr ql "lunch" = false ∧
    containsSubstr ql "dinner" = false := by
  unfold mealTypesMentioned at h
  refine ⟨?_, ?_, ?_⟩
  · cases hb : containsSubstr ql "breakfast" with
    | false => rfl
    | true => rw [hb] at h; simp at h
  · cases hb : containsSubstr ql "lunch" with
    | false => rfl
    | true => rw [hb] at h; simp at h
  · cases hb : containsSubstr ql "dinner" with
    | false => rfl
    | true => rw [hb] at h; simp at h

/-- `_validate_meal_count` is a no-op on any state that already carries the
meal count and meal types it would produce for this query. -/
theorem validateMealCount_stable (q : String) (p s : Parsed)
    (hm : s.meals_per_day = ((validateMealCount q p).1).meals_per_day)
    (ht : s.meal_types = ((validateMealCount q p).1).meal_types) :
    (validateMealCount q s).1 = s := by
  unfold validateMealCount at hm ht ⊢
  dsimp only at hm ht ⊢
  cases hq : reSearchNumMeals (pyLower q) with
  | some n =>
      rw [hq] at hm ht
      dsimp only at hm ht ⊢
      by_cases hn : 1 ≤ n ∧ n ≤ 4
      · rw [if_pos hn] at hm ⊢
        dsimp only at hm
        rw [← hm]
      · rw [if_neg hn] at hm ⊢
        dsimp only at hm
        rw [← hm]
  | none =>
      rw [hq] at hm ht
      dsimp only at hm ht ⊢
      by_cases hmm : mealTypesMentioned (pyLower q) ≠ []
      · rw [if_pos hmm] at hm ht ⊢
        dsimp only at hm ht
        rw [← hm, ← ht]
      · rw [if_neg hmm] at hm ht ⊢
        have hmm' : mealTypesMentioned (pyLower q) = [] := not_not.mp hmm
        obtain ⟨hb, hl2, hd⟩ := mealTypesMentioned_nil hmm'
        simp only [hb, hl2, hd, Bool.false_eq_true, if_false, ite_self] at hm ht ⊢
        cases hpm : p.meals_per_day with
        | some k =>
            rw [hpm] at hm
            dsimp only at hm
            rw [hm, hpm]
        | none =>
            rw [hpm] at hm
            dsimp only at hm
            rw [hm]

/-- `_validate_duration` is a no-op on an in-range duration. -/
theorem validateDuration_stable (q : String) (s : Parsed)
    (h1 : 1 ≤ s.duration_days) (h7 : s.duration_days ≤ 7) :
    (validateDuration q s).1 = s := by
  unfold validateDuration
  dsimp only
  rw [if_neg (by omega), if_neg (by omega)]

/-- `_validate_contradictions` is a no-op when re-detection adds nothing new
to an already deduplicated list. -/
theorem validateContradictions_stable (q : String) (s : Parsed)
    (h : pyDedup (s.contradictions ++
      detectContradictions s.dietary_restrictions s.preferences) =
      s.contradictions) :
    (validateContradictions q s).1 = s := by
  unfold validateContradictions
  dsimp only
  by_cases hc : s.contradictions ++
      detectContradictions s.dietary_restrictions s.preferences = []
  · rw [if_neg (fun hne => hne hc)]
  · rw [if_pos hc, h]

/-- C9 amended: re-running the validator pipeline on its own corrected
output changes no parsed field except possibly the order of
`special_requirements`: duration, meal count, meal types, restrictions,
preferences, contradictions and prep_time_max are all exactly equal, and
`special_requirements` keeps exactly the same elements (the budget rewrite
can move the budget tag to the end, as the counterexample shows). -/
theorem c9_second_validation_stable (q : String) (p : Parsed) :
    ((QueryValidator.validate q
      ((QueryValidator.validate q p).1)).1).duration_days =
      ((QueryValidator.validate q p).1).duration_days ∧
    ((QueryValidator.validate q
      ((QueryValidator.validate q p).1)).1).meals_per_day =
      ((QueryValidator.validate q p).1).meals_per_day ∧
    ((QueryValidator.validate q
      ((QueryValidator.validate q p).1)).1).meal_types =
      ((QueryValidator.validate q p).1).meal_types ∧
    ((QueryValidator.validate q
      ((QueryValidator.validate q p).1)).1).dietary_restrictions =
      ((QueryValidator.validate q p).1).dietary_restrictions ∧
    ((QueryValidator.validate q
      ((QueryValidator.validate q p).1)).1).preferences =
      ((QueryValidator.validate q p).1).preferences ∧
    ((QueryValidator.validate q
      ((QueryValidator.validate q p).1)).1).contradictions =
      ((QueryValidator.validate q p).1).contradictions ∧
    ((QueryValidator.validate q
      ((QueryValidator.validate q p).1)).1).prep_time_max =
      ((QueryValidator.validate q p).1).prep_time_max ∧
    (∀ x, (x ∈ ((QueryValidator.validate q
        ((QueryValidator.validate q p).1)).1).special_requirements ↔
      x ∈ ((QueryValidator.validate q p).1).special_requirements)) := by
  have hmc2 : (validateMealCount q ((QueryValidator.validate q p).1)).1 =
      (QueryValidator.validate q p).1 :=
    validateMealCount_stable q p _ (validate_mpd_value q p)
      (validate_mts_value q p)
  refine ⟨?_, ?_, ?_, ?_, ?_, ?_, ?_, ?_⟩
  · rw [validate_duration_value q ((QueryValidator.validate q p).1),
      validate_duration_value q p]
    split_ifs <;> omega
  · rw [validate_mpd_value q ((QueryValidator.validate q p).1), hmc2]
  · rw [validate_mts_value q ((QueryValidator.validate q p).1), hmc2]
  · exact validate_dr_value q ((QueryValidator.validate q p).1)
  · exact validate_pref_value q ((QueryValidator.validate q p).1)
  · rw [validate_contr_value q ((QueryValidator.validate q p).1),
      validate_dr_value q p, validate_pref_value q p,
      validate_contr_value q p]
    by_cases hc : p.contradictions ++
        detectContradictions p.dietary_restrictions p.preferences = []
    · obtain ⟨h1, h2⟩ := List.append_eq_nil.mp hc
      rw [h1, h2]
      simp [pyDedup, pyDedupAux]
    · rw [if_neg hc]
      have hne : pyDedup (p.contradictions ++
          detectContradictions p.dietary_restrictions p.preferences) ++
          detectContradictions p.dietary_restrictions p.preferences ≠ [] := by
        intro hf
        obtain ⟨hf1, hf2⟩ := List.append_eq_nil.mp hf
        exact (pyDedup_ne_nil hc) hf1
      rw [if_neg hne, pyDedup_append_pyDedup
        (fun y hy => List.mem_append.mpr (Or.inr hy))]
  · rw [validate_ptm_value q ((QueryValidator.validate q p).1)]
    cases hpt : prepTimeMaxOf (pyLower q) with
    | none => rfl
    | some n =>
        dsimp only
        by_cases hn : n ≠ 0
        · rw [if_pos hn, validate_ptm_value q p, hpt]
          dsimp only
          rw [if_pos hn]
        · rw [if_neg hn]
  · intro x
    rw [validate_special_value q ((QueryValidator.validate q p).1),
      validate_special_value q p]
    exact rewrite_membership_stable (budgetLevelOf (pyLower q))
      (prepTimeMaxOf (pyLower q))
      (fun lvl h => budgetLevelOf_mem (pyLower q) lvl h)
      p.special_requirements x
